import Mathlib

/-!
Verification development for the task-orchestration and approval-gated
execution engine of the `knighthacks2025` backend.

Shallow embedding conventions:
- Snowflake tables (sessions, messages, activities, case data) are modelled as
  Lean lists carried in an explicit state record; every database write in the
  source becomes a pure state transformation, and the happy path of the
  database connection is assumed (a `get_snowflake_conn` failure is an
  orthogonal outage handled identically everywhere in the source).
- Timestamps (`CURRENT_TIMESTAMP`, `datetime.now()`) are naturals supplied by
  the state; identifier generation (`uuid4`, `secrets.token_hex`) is modelled
  by a fresh counter, which captures exactly the uniqueness the source relies
  on.
- Calls to the external language-inference service and to remote sub-agents
  are oracles passed as parameters: `Except String α` models a Python call
  that either returns a value or raises, and `Option` at the parse boundary
  models `json.loads` success/failure.
- Python dictionary access `d.get(key, default)` is modelled by `Option`
  fields read with `Option.getD`.
-/

/-- Substring test on character lists: `needle` occurs somewhere inside the
list. Models the Python `needle in hay` membership test on strings. -/
def charsInfix (needle : List Char) : List Char → Bool
  | [] => needle.isEmpty
  | c :: t => needle.isPrefixOf (c :: t) || charsInfix needle t

/-- Python `needle in hay` substring membership on strings. -/
def strHasSub (hay needle : String) : Bool :=
  charsInfix needle.toList hay.toList

/-- Python `str.lower()` (the source only lowercases ASCII text). -/
def strLower (s : String) : String :=
  s.map Char.toLower

namespace TenderCoordinator

/-- The keyword table of `intelligent_task_type_detection`
(`backend/tenderpilot_agents/tender_coordinator/utils.py`). -/
def task_patterns : List (String × List String) :=
  [ ("medical_records",
      ["medical", "records", "billing", "hospital", "doctor", "patient",
       "mri", "x-ray", "lab", "test", "diagnosis", "treatment", "provider"]),
    ("client_communication",
      ["client", "communication", "message", "email", "call", "notify",
       "update", "inform", "contact", "reach out", "send", "draft", "write",
       "deposition", "meeting", "appointment", "reminder", "check in"]),
    ("legal_research",
      ["research", "legal", "case law", "precedent", "statute", "law",
       "copyright", "infringement", "music", "remastering", "legal issue",
       "find", "search", "analyze", "investigate", "study"]),
    ("schedule_appointment",
      ["schedule", "appointment", "meeting", "deposition", "call", "book",
       "arrange", "coordinate", "set up", "plan", "organize", "calendar"]),
    ("document_organization",
      ["organize", "documents", "evidence", "files", "papers", "sort",
       "categorize", "index", "arrange", "structure", "manage"]) ]

/-- Matched keyword count for one category against the lowercased input. -/
def keywordScore (inputLower : String) (kws : List String) : Nat :=
  kws.countP (fun k => strHasSub inputLower k)

/-- Normalised confidence `score / len(keywords)` of one category. -/
def categoryConfidence (inputLower : String) (kws : List String) : ℚ :=
  (keywordScore inputLower kws : ℚ) / (kws.length : ℚ)

/-- Python `max(items, key=...)`: first element of maximal score wins ties.
On an empty list the source would raise; the concrete pattern table is
nonempty, and the default is never reached. -/
def bestPair : List (String × ℚ) → (String × ℚ)
  | [] => ("unknown", 0)
  | h :: t => t.foldl (fun b x => if b.2 < x.2 then x else b) h

/-- Output of the local keyword classifier. The human-readable
`reasoning`/`suggestions` strings of the source are presentation-only and
not part of any claim; the decision-relevant fields are kept. -/
structure DetectionResult where
  taskType : String
  confidence : ℚ
  deriving Repr, DecidableEq

/-- `intelligent_task_type_detection(user_input)`
(`backend/tenderpilot_agents/tender_coordinator/utils.py`, lines 32-112):
lowercase the input, score every category by
`(matched keyword count) / (total keywords)`, pick the best-scoring
category, and report `unknown` when the best confidence is below `0.1`. -/
def intelligent_task_type_detection (userInput : String) : DetectionResult :=
  let inputLower := strLower userInput
  let scores := task_patterns.map (fun p => (p.1, categoryConfidence inputLower p.2))
  let best := bestPair scores
  if best.2 < (1 : ℚ) / 10 then
    { taskType := "unknown", confidence := best.2 }
  else
    { taskType := best.1, confidence := best.2 }

/-- All confidence scores computed for an input, in table order. -/
def confidenceScores (userInput : String) : List (String × ℚ) :=
  task_patterns.map (fun p => (p.1, categoryConfidence (strLower userInput) p.2))

end TenderCoordinator

namespace Ledger

/-- One row of the `agent_activities` table. `activityId` is the uniqueness
abstraction of the source's `act-YYYYMMDD-uuid4` strings (fresh naturals). -/
structure ActivityRow where
  activityId : Nat
  caseId : String
  agentType : String
  agentAction : String
  status : String
  prompt : String
  agentResponse : String
  actionData : Option (List (String × String))
  requiresApproval : Bool
  sessionId : Option String
  createdAt : Nat
  updatedAt : Nat
  approvedAt : Option Nat
  approvedBy : Option String
  executionResult : Option String
  errorMessage : Option String
  deriving Repr, DecidableEq

/-- The row transformation performed by the SQL `UPDATE` in
`update_activity_status` on every row whose `activity_id` matches:
`activity_status`, `updated_at`, `approved_by`, `execution_result` and
`error_message` are assigned unconditionally; `approved_at` keeps its old
value unless the new status is `approved` or `rejected`. -/
def applyStatusUpdate (now : Nat) (status : String)
    (approvedBy executionResult errorMessage : Option String)
    (a : ActivityRow) : ActivityRow :=
  { a with
    status := status
    updatedAt := now
    approvedAt := if status = "approved" ∨ status = "rejected" then some now else a.approvedAt
    approvedBy := approvedBy
    executionResult := executionResult
    errorMessage := errorMessage }

/-- `update_activity_status(activity_id, status, approved_by, execution_result,
error_message)` (`backend/services/activity_logger.py`, lines 162-215): a
single unconditional SQL `UPDATE ... WHERE activity_id = %s` followed by
`return True`.  There is no read of the current status, no state-machine
check, and no check that any row matched.  The returned `Bool` is the
source's return value on the happy database path (it is `False` only when
the database connection itself fails). -/
def update_activity_status (acts : List ActivityRow) (now : Nat)
    (activityId : Nat) (status : String)
    (approvedBy executionResult errorMessage : Option String) :
    List ActivityRow × Bool :=
  (acts.map (fun a =>
      if a.activityId = activityId then
        applyStatusUpdate now status approvedBy executionResult errorMessage a
      else a),
   true)

/-- Status values the specification designates as terminal. -/
def isTerminal (s : String) : Bool :=
  s = "rejected" || s = "completed" || s = "failed"

/-- A terminal (`completed`) ledger row used to refute claim C1. -/
def c1Row : ActivityRow :=
  { activityId := 1, caseId := "case-1", agentType := "ClientCommunicationGuru",
    agentAction := "send_email", status := "completed",
    prompt := "Subject: Settlement Update - Your Case",
    agentResponse := "<p>body</p>", actionData := none,
    requiresApproval := true, sessionId := some "sess-0",
    createdAt := 0, updatedAt := 5, approvedAt := some 3,
    approvedBy := some "attorney@example.com",
    executionResult := some "sent", errorMessage := none }

/-- A pending-then-approved row used to refute claim C3. -/
def c3Row : ActivityRow :=
  { activityId := 2, caseId := "case-2", agentType := "RecordsWrangler",
    agentAction := "request_records", status := "pending",
    prompt := "request records", agentResponse := "draft", actionData := none,
    requiresApproval := true, sessionId := none,
    createdAt := 0, updatedAt := 0, approvedAt := none,
    approvedBy := some "attorney@example.com",
    executionResult := none, errorMessage := none }

end Ledger

namespace Store

open Ledger

/-- One row of the `agent_sessions` table. -/
structure SessionRow where
  sessionId : String
  caseId : String
  agentType : String
  topic : String
  status : String
  createdAt : Nat
  lastActivity : Nat
  messageCount : Nat
  deriving Repr, DecidableEq

/-- One row of the `session_messages` table. -/
structure MessageRow where
  messageId : Nat
  sessionId : String
  role : String
  content : String
  timestamp : Nat
  deriving Repr, DecidableEq

/-- A sent email, recorded the moment `send_client_email` reaches its SMTP
block (the outbound sender has then been invoked, whether or not delivery
succeeds). -/
structure SentEmail where
  toEmail : String
  toName : String
  subject : String
  body : String
  deriving Repr, DecidableEq

/-- The persistent state every service call threads: the three tables, the
read-only `CASE_DATA` client registry (`case_id ↦ (client_email,
client_name)`), fresh-id counters, the current clock, and the audit list of
SMTP invocations. -/
structure DbState where
  sessions : List SessionRow
  messages : List MessageRow
  activities : List ActivityRow
  caseData : List (String × (Option String × Option String))
  nextSessionId : Nat
  nextMessageId : Nat
  nextActivityId : Nat
  now : Nat
  sentEmails : List SentEmail
  deriving Repr, DecidableEq

/-- `log_agent_activity(...)` (`backend/services/activity_logger.py`, lines
8-81): inserts a `pending` row and returns its fresh id (the source returns
`None` only when the database connection fails; the happy path is modelled). -/
def log_agent_activity (caseId agentType agentAction prompt agentResponse : String)
    (actionData : Option (List (String × String))) (requiresApproval : Bool)
    (sessionId : Option String) (st : DbState) : Nat × DbState :=
  let aid := st.nextActivityId
  (aid,
   { st with
     activities := st.activities ++
       [{ activityId := aid
          caseId := caseId
          agentType := agentType
          agentAction := agentAction
          status := "pending"
          prompt := prompt
          agentResponse := agentResponse
          actionData := actionData
          requiresApproval := requiresApproval
          sessionId := sessionId
          createdAt := st.now
          updatedAt := st.now
          approvedAt := none
          approvedBy := none
          executionResult := none
          errorMessage := none }]
     nextActivityId := aid + 1 })

/-- `create_session(case_id, agent_type, topic)`
(`backend/services/session_manager.py`, lines 17-55): inserts an `active`
session row with `message_count = 0` and returns its id. -/
def create_session (caseId agentType topic : String) (st : DbState) :
    String × DbState :=
  let sid := "sess-" ++ Nat.repr st.nextSessionId
  (sid,
   { st with
     sessions := st.sessions ++
       [{ sessionId := sid, caseId := caseId, agentType := agentType,
          topic := topic, status := "active", createdAt := st.now,
          lastActivity := st.now, messageCount := 0 }]
     nextSessionId := st.nextSessionId + 1 })

/-- `store_message(session_id, role, content)`
(`backend/services/session_manager.py`, lines 115-157): inserts the message
row and bumps `last_activity` / `message_count` on the owning session. -/
def store_message (sessionId role content : String) (st : DbState) :
    Nat × DbState :=
  let mid := st.nextMessageId
  (mid,
   { st with
     messages := st.messages ++
       [{ messageId := mid, sessionId := sessionId, role := role,
          content := content, timestamp := st.now }]
     sessions := st.sessions.map (fun s =>
       if s.sessionId = sessionId then
         { s with lastActivity := st.now, messageCount := s.messageCount + 1 }
       else s)
     nextMessageId := mid + 1 })

/-- Insertion step of sorting message rows by `timestamp` descending
(the SQL `ORDER BY timestamp DESC`). -/
def insertByTsDesc (m : MessageRow) : List MessageRow → List MessageRow
  | [] => [m]
  | b :: t => if b.timestamp ≤ m.timestamp then m :: b :: t else b :: insertByTsDesc m t

/-- Sort message rows by `timestamp` descending. -/
def sortByTsDesc (l : List MessageRow) : List MessageRow :=
  l.foldr insertByTsDesc []

/-- `get_recent_messages(session_id, count)`
(`backend/services/session_manager.py`, lines 203-236): select the session's
rows ordered by `timestamp DESC` limited to `count`, then reverse into
chronological order and keep only `role` and `content`. -/
def get_recent_messages (st : DbState) (sessionId : String) (count : Nat) :
    List (String × String) :=
  (((sortByTsDesc (st.messages.filter (fun m => m.sessionId = sessionId))).take
      count).reverse).map (fun m => (m.role, m.content))

/-- The session's full message history in append order, projected to
`{role, content}`. -/
def sessionHistory (st : DbState) (sessionId : String) : List (String × String) :=
  (st.messages.filter (fun m => m.sessionId = sessionId)).map
    (fun m => (m.role, m.content))

/-- `get_active_session(case_id)` (`backend/services/session_manager.py`,
lines 58-112): the `active` session of the case with the greatest
`last_activity` (the SQL `ORDER BY last_activity DESC LIMIT 1`). -/
def get_active_session (st : DbState) (caseId : String) : Option SessionRow :=
  ((st.sessions.filter (fun s => s.caseId = caseId && s.status = "active")).foldl
    (fun best s =>
      match best with
      | none => some s
      | some b => if b.lastActivity < s.lastActivity then some s else some b)
    none)

/-- Concrete three-message session used to witness claim C7. -/
def c7State : DbState :=
  { sessions := [], messages :=
      [{ messageId := 0, sessionId := "sess-0", role := "user",
         content := "Draft an email about the settlement offer", timestamp := 1 },
       { messageId := 1, sessionId := "sess-0", role := "agent",
         content := "Drafted", timestamp := 2 },
       { messageId := 2, sessionId := "sess-0", role := "user",
         content := "What about next week instead?", timestamp := 3 }],
    activities := [], caseData := [], nextSessionId := 1, nextMessageId := 3,
    nextActivityId := 0, now := 4, sentEmails := [] }

end Store

namespace EmailSender

open Ledger Store

/-- SMTP configuration drawn from the environment
(`FIRM_EMAIL`, `FIRM_EMAIL_PASSWORD`, `FIRM_NAME`). -/
structure EmailConfig where
  firmEmail : Option String
  firmPassword : Option String
  firmName : String
  deriving Repr, DecidableEq

/-- Result dictionary shared by the sending entry points of
`backend/services/email_sender.py`. -/
structure SendResult where
  status : String
  sent : Bool
  errorMsg : Option String
  toEmail : Option String
  timestamp : Option Nat
  deriving Repr, DecidableEq

/-- Fixed HTML boilerplate preceding the body content in
`format_email_html` (CSS braces written as escapes). -/
def emailHtmlHead : String :=
  "<!DOCTYPE html>\n<html>\n<head>\n    <meta charset=\"UTF-8\">\n    <style>\n        :root \x7b\n            color-scheme: light only;\n        \x7d\n        body \x7b\n            background-color: #ffffff !important;\n        \x7d\n    </style>\n</head>\n<body>\n    <div>\n        <div>\n            <div>\n                "

/-- Fixed HTML boilerplate following the body content. -/
def emailHtmlTail : String :=
  "\n            </div>\n        </div>\n    </div>\n</body>\n</html>"

/-- `format_email_html(body_text)` (`backend/services/email_sender.py`, lines
274-326): split into paragraphs on blank lines, turn inner newlines into
`<br>`, wrap each nonempty paragraph in a styled `<p>`, and embed in the
fixed HTML template (whose inline style attributes are abbreviated here;
no claim inspects the boilerplate). -/
def format_email_html (bodyText : String) : String :=
  let paragraphs := bodyText.trim.splitOn "\n\n"
  let htmlParagraphs := paragraphs.filterMap (fun para =>
    let p := para.trim.replace "\n" "<br>"
    if p = "" then none
    else some ("<p style=\"margin: 0 0 16px 0; color: #333333;\">" ++ p ++ "</p>"))
  emailHtmlHead ++ String.intercalate "\n" htmlParagraphs ++ emailHtmlTail

/-- `send_client_email(to_email, to_name, subject, body, ...)`
(`backend/services/email_sender.py`, lines 77-156): checks credentials, then
the recipient address, then performs the SMTP send.  Reaching the SMTP block
is recorded in `sentEmails` (the outbound sender has been invoked); the
`smtp` oracle decides whether the send itself succeeds or raises.  The MIME
assembly (plain-text alternative of the HTML body) does not affect any
observable field and is elided. -/
def send_client_email (cfg : EmailConfig) (smtp : Except String Unit)
    (toEmail toName subject body : String) (st : DbState) :
    SendResult × DbState :=
  if cfg.firmEmail.isNone || cfg.firmPassword.isNone then
    ({ status := "error", sent := false,
       errorMsg := some "Email credentials not configured",
       toEmail := none, timestamp := none }, st)
  else if toEmail = "" || toEmail = "client" then
    ({ status := "error", sent := false,
       errorMsg := some "No valid client email address",
       toEmail := none, timestamp := none }, st)
  else
    let st1 := { st with sentEmails := st.sentEmails ++
      [{ toEmail := toEmail, toName := toName, subject := subject, body := body }] }
    match smtp with
    | Except.ok _ =>
        ({ status := "success", sent := true, errorMsg := none,
           toEmail := some toEmail, timestamp := some st.now }, st1)
    | Except.error e =>
        ({ status := "error", sent := false,
           errorMsg := some ("Failed to send email: " ++ e),
           toEmail := none, timestamp := none }, st1)

/-- Result of `prepare_email_for_approval`. -/
structure PrepResult where
  status : String
  activityId : Option Nat
  info : Option String
  deriving Repr, DecidableEq

/-- `prepare_email_for_approval(to_email, to_name, subject, body, case_id,
session_id)` (`backend/services/email_sender.py`, lines 12-74): logs a
`pending` activity with action `send_email` (the HTML body stored in
`agent_response`, the subject in `prompt`) and does NOT send.  The
`to_email` / `to_name` parameters are unused by the source (client details
are re-fetched on approval); the plain-text preview computed by the source
is dead code (never referenced) and is omitted. -/
def prepare_email_for_approval (toEmail : Option String) (toName : String)
    (subject body caseId : String) (sessionId : Option String)
    (st : DbState) : PrepResult × DbState :=
  if caseId = "" then
    ({ status := "error", activityId := none,
       info := some "No case_id provided" }, st)
  else
    let (aid, st1) := log_agent_activity caseId "ClientCommunicationGuru"
      "send_email" ("Subject: " ++ subject) body none true sessionId st
    ({ status := "success", activityId := some aid,
       info := some ("Email prepared for approval. Activity ID: act-" ++ Nat.repr aid) },
     st1)

/-- Remainder of a character list after the first occurrence of `marker`. -/
def afterMarker (marker : List Char) : List Char → Option (List Char)
  | [] => if marker.isEmpty then some [] else none
  | c :: t =>
      if marker.isPrefixOf (c :: t) then some ((c :: t).drop marker.length)
      else afterMarker marker t

/-- The `re.search(r'Subject: (.+)$', prompt)` subject extraction of
`send_approved_email`: everything after the first `"Subject: "` marker
(nonempty, stripped).  Stored prompts are single-line, so the `$` anchor
adds nothing. -/
def parseSubject (prompt : String) : Option String :=
  match afterMarker "Subject: ".toList prompt.toList with
  | none => none
  | some rest => if rest.isEmpty then none else some (String.mk rest).trim

/-- `send_approved_email(activity_id)` (`backend/services/email_sender.py`,
lines 159-271): fetch the activity, REFUSE unless its status is exactly
`approved`, re-fetch the client from `CASE_DATA`, send, and on a successful
send mark the activity `completed` via `update_activity_status`. -/
def send_approved_email (cfg : EmailConfig) (smtp : Except String Unit)
    (aid : Nat) (st : DbState) : SendResult × DbState :=
  match st.activities.find? (fun a => a.activityId = aid) with
  | none =>
      ({ status := "error", sent := false,
         errorMsg := some ("Activity act-" ++ Nat.repr aid ++ " not found"),
         toEmail := none, timestamp := none }, st)
  | some a =>
      if a.status ≠ "approved" then
        ({ status := "error", sent := false,
           errorMsg := some ("Activity status is \x27" ++ a.status ++ "\x27, not \x27approved\x27"),
           toEmail := none, timestamp := none }, st)
      else
        let subject := (parseSubject a.prompt).getD "Case Update"
        match (st.caseData.find? (fun p => p.1 = a.caseId)).map (·.2) with
        | none =>
            ({ status := "error", sent := false,
               errorMsg := some ("Client email not found for case_id: " ++ a.caseId),
               toEmail := none, timestamp := none }, st)
        | some (emailOpt, nameOpt) =>
            match emailOpt with
            | none =>
                ({ status := "error", sent := false,
                   errorMsg := some ("Client email not found for case_id: " ++ a.caseId),
                   toEmail := none, timestamp := none }, st)
            | some toEmail =>
                if toEmail = "" then
                  ({ status := "error", sent := false,
                     errorMsg := some ("Client email not found for case_id: " ++ a.caseId),
                     toEmail := none, timestamp := none }, st)
                else
                  let toName := match nameOpt with
                    | some n => if n = "" then "Client" else n
                    | none => "Client"
                  if a.agentResponse = "" then
                    ({ status := "error", sent := false,
                       errorMsg := some "Email body is empty",
                       toEmail := none, timestamp := none }, st)
                  else
                    let (sendRes, st1) :=
                      send_client_email cfg smtp toEmail toName subject a.agentResponse st
                    if sendRes.sent then
                      let (acts, _) := update_activity_status st1.activities st1.now aid
                        "completed" none
                        (some ("Email sent to " ++ toEmail ++ " at " ++ Nat.repr st1.now))
                        none
                      (sendRes, { st1 with activities := acts })
                    else
                      (sendRes, st1)

/-- A still-`pending` send_email activity used to witness claim C2. -/
def c2Row : ActivityRow :=
  { activityId := 0, caseId := "case-1",
    agentType := "ClientCommunicationGuru", agentAction := "send_email",
    status := "pending", prompt := "Subject: Case Status Update",
    agentResponse := "<p>hello</p>", actionData := none,
    requiresApproval := true, sessionId := none, createdAt := 0,
    updatedAt := 0, approvedAt := none, approvedBy := none,
    executionResult := none, errorMessage := none }

/-- Concrete state used to witness claim C2. -/
def c2State : DbState :=
  { sessions := [], messages := [],
    activities := [c2Row],
    caseData := [("case-1", (some "client@example.com", some "Jane Doe"))],
    nextSessionId := 0, nextMessageId := 0, nextActivityId := 1, now := 2,
    sentEmails := [] }

/-- SMTP configuration with credentials present. -/
def c2Config : EmailConfig :=
  { firmEmail := some "firm@example.com"
    firmPassword := some "secret"
    firmName := "Morgan & Morgan" }

end EmailSender

namespace Orchestrator

open Ledger Store EmailSender

/-- Result dictionary of `client_communication_guru`.  The optional fields
model dictionary keys that exist only when `send_email=True`
(`agent_response.get(key, default)` reads in the orchestrator). -/
structure GuruOut where
  draft : String
  toAddr : String
  toName : String
  subject : String
  requiresApproval : Bool
  emailSent : Option Bool
  approvalStatus : Option String
  activityIdOpt : Option Nat
  message : Option String
  deriving Repr, DecidableEq

/-- Subject-line selection of `client_communication_guru`
(`.../client_communication_agent/agent.py`, lines 120-132): keyword
containment tests on the lowercased task. -/
def guruSubject (task : String) : String :=
  let tl := strLower task
  if strHasSub tl "schedul" || strHasSub tl "appointment" || strHasSub tl "meeting" then
    "Appointment Scheduling - Your Case"
  else if strHasSub tl "settlement" || strHasSub tl "offer" then
    "Settlement Update - Your Case"
  else if strHasSub tl "document" || strHasSub tl "sign" then
    "Documents Required - Your Case"
  else if strHasSub tl "evidence" || strHasSub tl "information" then
    "Information Request - Your Case"
  else if strHasSub tl "update" || strHasSub tl "status" then
    "Case Status Update"
  else "Case Update"

/-- `client_communication_guru(case_context, task, case_id, session_id,
send_email)` (`.../client_communication_agent/agent.py`): fetch client
details (falling back to defaults when `case_id` is empty, the lookup
raises, or the row is absent), obtain the draft from the inference oracle
(an exception propagates - the source has no try around
`model.generate_content`), pick a subject, and - when `send_email` is true -
hand the HTML draft to `prepare_email_for_approval` WITHOUT sending,
reporting `email_sent = False` / `approval_status = 'pending'`.
`clientFetch = none` models both a raised lookup and an absent row (the
source treats them identically via defaults). -/
def client_communication_guru (draftOutcome : Except String String)
    (clientFetch : Option (Option String × Option String))
    (caseContext task caseId : String) (sessionId : Option String)
    (sendEmail : Bool) (st : DbState) : Except String (GuruOut × DbState) :=
  let (clientName, clientEmail) :=
    if caseId ≠ "" then
      match clientFetch with
      | some (nameOpt, emailOpt) =>
          (match nameOpt with
           | some n => if n = "" then "Valued Client" else n
           | none => "Valued Client",
           emailOpt)
      | none => ("Valued Client", none)
    else ("Valued Client", none)
  match draftOutcome with
  | Except.error e => Except.error e
  | Except.ok draftRaw =>
      let draftText := draftRaw.trim
      let subject := guruSubject task
      let toAddr := match clientEmail with
        | some e => if e = "" then "client" else e
        | none => "client"
      let base : GuruOut :=
        { draft := draftText, toAddr := toAddr, toName := clientName,
          subject := subject, requiresApproval := true,
          emailSent := none, approvalStatus := none,
          activityIdOpt := none, message := none }
      if sendEmail then
        let htmlBody := format_email_html draftText
        let (prep, st1) := prepare_email_for_approval clientEmail clientName
          subject htmlBody caseId sessionId st
        Except.ok
          ({ base with
             emailSent := some false
             approvalStatus := some "pending"
             activityIdOpt := prep.activityId
             message := some ("Email draft prepared. Awaiting approval (Activity ID: " ++
               (match prep.activityId with
                | some n => "act-" ++ Nat.repr n
                | none => "None") ++ ")") }, st1)
      else
        Except.ok (base, st)

/-- The structured decision parsed from the Intent Classifier's inference
text.  `Option` fields model dictionary keys read with
`analysis_data.get(key, default)`. -/
structure AnalysisData where
  isContinuation : Option Bool
  topic : Option String
  actionType : Option String
  agentType : Option String
  requiresApproval : Option Bool
  reasoning : Option String
  deriving Repr, DecidableEq

/-- The deterministic fallback dictionary of the orchestrator's intent
analysis (`backend/agents/orchistrator_agent/agent.py`, lines 94-102),
used whenever `json.loads` fails. -/
def analysisFallback : AnalysisData :=
  { isContinuation := some false
    topic := some "General query"
    actionType := some "general_query"
    agentType := some "Orchestrator"
    requiresApproval := some false
    reasoning := some "Failed to parse, defaulting to safe general query" }

/-- The `try: json.loads / except: fallback` parse step of the orchestrator's
intent analysis: `none` models unparsable inference text. -/
def classifierParse (parsed : Option AnalysisData) : AnalysisData :=
  parsed.getD analysisFallback

/-- Result dictionary of `records_wrangler_guru` as read by the orchestrator
(`draft` and `message` keys).  The function itself is imported but defined
nowhere in the repository, so it is an uninterpreted delegate here. -/
structure RWOut where
  draft : Option (List (String × String))
  message : Option String
  deriving Repr, DecidableEq

/-- Result dictionary of `evidence_sorter_guru` as read by the orchestrator
(`activity_id` and `message` keys). -/
structure EVOut where
  activityId : Option Nat
  message : Option String
  deriving Repr, DecidableEq

/-- Result dictionary of `legal_researcher` as read by the orchestrator
(`summary` key); the researcher performs no ledger writes. -/
structure LROut where
  summary : Option String
  deriving Repr, DecidableEq

/-- Oracles for every external call the orchestrator makes during one
request.  `Except.error` models the Python call raising; for the intent
analysis, `Except.ok none` models inference text that fails `json.loads`.
`evidenceCall` is a state transformer because `evidence_sorter_guru` logs
its own activity rows via `evidence_processor`. -/
structure Oracles where
  analysisResult : Except String (Option AnalysisData)
  guruDraft : Except String String
  guruClientFetch : Option (Option String × Option String)
  evidenceCall : DbState → Except String (EVOut × DbState)
  recordsSearch : Except String RWOut
  recordsRequest : Except String RWOut
  legalResearch : Except String LROut
  internalResearch : Except String String

/-- Rendering of `json.dumps` over a string-valued dictionary; all claims
treat these stored strings as opaque. -/
def dumpsPairs (l : List (String × String)) : String :=
  "\x7b" ++ String.intercalate ", "
    (l.map (fun kv => "\"" ++ kv.1 ++ "\": \"" ++ kv.2 ++ "\"")) ++ "\x7d"

/-- `json.dumps` of the guru result dictionary (opaque to all claims). -/
def dumpsGuru (g : GuruOut) : String :=
  dumpsPairs [("draft", g.draft), ("to", g.toAddr), ("to_name", g.toName),
              ("subject", g.subject)]

/-- Association-list read with a Python `.get(key, default)`. -/
def lookupStr (d : List (String × String)) (key dflt : String) : String :=
  match d.find? (fun kv => kv.1 = key) with
  | some kv => kv.2
  | none => dflt

/-- Outcome of one step-5 branch: the serialized agent response stored as the
`agent` message, the `activity_id` for the response envelope, and the
human-readable response message. -/
structure BranchOut where
  agentResponseStr : String
  activityId : Option Nat
  responseMessage : String
  deriving Repr, DecidableEq

/-- Step 5 of `orchestrator` (`backend/agents/orchistrator_agent/agent.py`,
lines 122-289): route on `action_type`.  Structure mirrors the source's
`if/elif` chain; any exception raised by a sub-agent call propagates
(the source wraps none of these calls in try/except). -/
def orchestrator_branch (o : Oracles) (actionType caseId query caseContext
    session : String) (analysis : AnalysisData) (st : DbState) :
    Except String (BranchOut × DbState) :=
  if actionType = "draft_email" then
    match client_communication_guru o.guruDraft o.guruClientFetch caseContext
        query caseId (some session) true st with
    | Except.error e => Except.error e
    | Except.ok (g, st1) =>
        let (aid, st2) :=
          if (g.emailSent.getD false) = false then
            let (a, st2) := log_agent_activity caseId "ClientCommunicationGuru"
              "draft_email" query (dumpsGuru g)
              (some [("draft", g.draft), ("to", g.toAddr), ("subject", g.subject)])
              true (some session) st1
            (some a, st2)
          else
            (g.activityIdOpt, st1)
        let msg :=
          if g.emailSent.getD false then
            "✅ Email sent to " ++ g.toName ++ " (" ++ g.toAddr ++ ")\n\n" ++ g.draft
          else
            -- the guru result never carries a 'send_message' key, so the
            -- source's `.get('send_message', 'Unknown error')` always defaults
            "⚠️ Email drafted but not sent: Unknown error\n\n" ++ g.draft
        Except.ok ({ agentResponseStr := dumpsGuru g, activityId := aid,
                     responseMessage := msg }, st2)
  else if actionType = "process_evidence" then
    match o.evidenceCall st with
    | Except.error e => Except.error e
    | Except.ok (ev, st1) =>
        Except.ok ({ agentResponseStr := dumpsPairs
                       [("message", ev.message.getD "")],
                     activityId := ev.activityId,
                     responseMessage := ev.message.getD "Evidence processed successfully" },
                   st1)
  else if actionType = "search_records" then
    match o.recordsSearch with
    | Except.error e => Except.error e
    | Except.ok r =>
        Except.ok ({ agentResponseStr := dumpsPairs [("message", r.message.getD "")],
                     activityId := none,
                     responseMessage := r.message.getD "Records search completed" }, st)
  else if actionType = "request_records" then
    match o.recordsRequest with
    | Except.error e => Except.error e
    | Except.ok r =>
        match r.draft with
        | some d =>
            let (a, st1) := log_agent_activity caseId "RecordsWrangler"
              "request_records" query (dumpsPairs d)
              (some [("draft", dumpsPairs d),
                     ("to", lookupStr d "to" "Unknown provider"),
                     ("subject", lookupStr d "subject" "Records Request")])
              true (some session) st
            Except.ok ({ agentResponseStr := dumpsPairs [("message", r.message.getD "")],
                         activityId := some a,
                         responseMessage := r.message.getD "Records request email drafted" },
                       st1)
        | none =>
            Except.ok ({ agentResponseStr := dumpsPairs [("message", r.message.getD "")],
                         activityId := none,
                         responseMessage := r.message.getD "Records request email drafted" },
                       st)
  else if actionType = "schedule_appointment" then
    let fixedResponse := dumpsPairs
      [("message", "Appointment scheduling requested"),
       ("note", "VoiceBotScheduler agent not yet implemented")]
    let (a, st1) := log_agent_activity caseId "VoiceBotScheduler"
      "schedule_appointment" query fixedResponse (some [("request", query)])
      true (some session) st
    Except.ok ({ agentResponseStr := fixedResponse,
                 activityId := some a,
                 responseMessage := "Appointment scheduling requires approval (agent not yet implemented)" },
               st1)
  else if actionType = "research_external" then
    match o.legalResearch with
    | Except.error e => Except.error e
    | Except.ok r =>
        Except.ok ({ agentResponseStr := dumpsPairs [("summary", r.summary.getD "")],
                     activityId := none,
                     responseMessage := r.summary.getD "Legal research completed" }, st)
  else if actionType = "research_internal" then
    if caseContext.trim ≠ "" then
      match o.internalResearch with
      | Except.error e => Except.error e
      | Except.ok answer =>
          Except.ok ({ agentResponseStr := dumpsPairs
                         [("action_type", actionType), ("message", answer)],
                       activityId := none,
                       responseMessage := answer }, st)
    else
      Except.ok ({ agentResponseStr := dumpsPairs
                     [("action_type", actionType),
                      ("message", "I couldn\x27t find relevant information in the case files for this query.")],
                   activityId := none,
                   responseMessage := "I couldn\x27t find relevant information in the case files for this query." },
                 st)
  else
    Except.ok ({ agentResponseStr := dumpsPairs
                   [("message", "Query processed"),
                    ("analysis", analysis.reasoning.getD "General inquiry")],
                 activityId := none,
                 responseMessage := "I\x27m here to help. You can ask me to research cases, draft emails, or schedule appointments." },
               st)

/-- The response envelope returned by `orchestrator` (step 7). -/
structure OrchResponse where
  status : String
  sessionId : String
  sessionMode : String
  topic : Option String
  actionType : String
  requiresApproval : Bool
  activityId : Option Nat
  agentType : Option String
  message : String
  reasoning : Option String
  deriving Repr, DecidableEq

/-- Steps 1 and 3 of `orchestrator`
(`backend/agents/orchistrator_agent/agent.py`, lines 33-117): pick the
caller-supplied session, else the case's most recently active one; continue
it only when the analysis says `is_continuation`, otherwise create a new
session.  Returns `(session_mode, session_id, state)`.  The recent-message
retrieval of step 1 feeds only the (opaque) inference prompt. -/
def resolveSession (caseId : String) (sessionIdArg : Option String)
    (analysis : AnalysisData) (st : DbState) : String × String × DbState :=
  let currentSessionPre : Option String :=
    match sessionIdArg with
    | some sid => some sid
    | none => (get_active_session st caseId).map (fun s => s.sessionId)
  match currentSessionPre with
  | some sid =>
      if analysis.isContinuation.getD false then
        ("continue", sid, st)
      else
        let ns := create_session caseId (analysis.agentType.getD "Orchestrator")
          (analysis.topic.getD "General query") st
        ("new", ns.1, ns.2)
  | none =>
      let ns := create_session caseId (analysis.agentType.getD "Orchestrator")
        (analysis.topic.getD "General query") st
      ("new", ns.1, ns.2)

/-- `orchestrator(case_id, query, case_context, session_id)`
(`backend/agents/orchistrator_agent/agent.py`, lines 15-307): run the
intent analysis (an exception from the inference call propagates - the
source has no try around `model.generate_content`; a `json.loads` failure
falls back), resolve the session, append the inbound `user` message, route
to the step-5 branch, append the `agent` message, and build the response
envelope - whose `status` is the literal `'success'`. -/
def orchestrator (o : Oracles) (caseId query caseContext : String)
    (sessionIdArg : Option String) (st : DbState) :
    Except String (OrchResponse × DbState) :=
  match o.analysisResult with
  | Except.error e => Except.error e
  | Except.ok parsed =>
      let analysis := classifierParse parsed
      let r := resolveSession caseId sessionIdArg analysis st
      let st2 := (store_message r.2.1 "user" query r.2.2).2
      let actionType := analysis.actionType.getD "general_query"
      match orchestrator_branch o actionType caseId query caseContext r.2.1
          analysis st2 with
      | Except.error e => Except.error e
      | Except.ok (b, st3) =>
          Except.ok
            ({ status := "success"
               sessionId := r.2.1
               sessionMode := r.1
               topic := analysis.topic
               actionType := actionType
               requiresApproval := analysis.requiresApproval.getD false
               activityId := b.activityId
               agentType := analysis.agentType
               message := b.responseMessage
               reasoning := analysis.reasoning },
             (store_message r.2.1 "agent" b.agentResponseStr st3).2)

/-- The `pending` `send_email` activity row logged by
`prepare_email_for_approval` when the guru is asked to send. -/
def guruSendRow (task caseId : String) (sid : Option String) (d : String)
    (st : DbState) : ActivityRow :=
  { activityId := st.nextActivityId, caseId := caseId,
    agentType := "ClientCommunicationGuru", agentAction := "send_email",
    status := "pending", prompt := "Subject: " ++ guruSubject task,
    agentResponse := format_email_html d.trim, actionData := none,
    requiresApproval := true, sessionId := sid, createdAt := st.now,
    updatedAt := st.now, approvedAt := none, approvedBy := none,
    executionResult := none, errorMessage := none }

/-- Oracle set whose inference call raises, used to witness the amended
claim C5. -/
def c5Oracles : Oracles :=
  { analysisResult := Except.error "inference service unavailable"
    guruDraft := Except.ok "Dear Client,"
    guruClientFetch := none
    evidenceCall := fun st => Except.ok ({ activityId := none, message := none }, st)
    recordsSearch := Except.ok { draft := none, message := none }
    recordsRequest := Except.ok { draft := none, message := none }
    legalResearch := Except.ok { summary := none }
    internalResearch := Except.ok "answer" }

/-- Empty database state used by the concrete runs below. -/
def emptyDb : DbState :=
  { sessions := [], messages := [], activities := [], caseData := [],
    nextSessionId := 0, nextMessageId := 0, nextActivityId := 0, now := 1,
    sentEmails := [] }

/-- Intent analysis whose dynamic decision claims `requires_approval =
false` for a schedule request, used to witness claim C4. -/
def c4Analysis : AnalysisData :=
  { isContinuation := some false, topic := some "Scheduling",
    actionType := some "schedule_appointment",
    agentType := some "VoiceBotScheduler",
    requiresApproval := some false,
    reasoning := some "scheduling request" }

/-- Oracle set for the claim C4 witness run. -/
def c4Oracles : Oracles :=
  { analysisResult := Except.ok (some c4Analysis)
    guruDraft := Except.ok "Dear Client,"
    guruClientFetch := none
    evidenceCall := fun st => Except.ok ({ activityId := none, message := none }, st)
    recordsSearch := Except.ok { draft := none, message := none }
    recordsRequest := Except.ok { draft := none, message := none }
    legalResearch := Except.ok { summary := none }
    internalResearch := Except.ok "answer" }

/-- Intent analysis resolving to `draft_email`, used for the claim C10
witness run. -/
def c10Analysis : AnalysisData :=
  { isContinuation := some false, topic := some "Client email",
    actionType := some "draft_email",
    agentType := some "ClientCommunicationGuru",
    requiresApproval := some true,
    reasoning := some "client communication" }

/-- Oracle set for the claim C10 witness run. -/
def c10Oracles : Oracles :=
  { analysisResult := Except.ok (some c10Analysis)
    guruDraft := Except.ok "Dear Jane,\n\nUpdate on your case."
    guruClientFetch := some (some "Jane Doe", some "jane@example.com")
    evidenceCall := fun st => Except.ok ({ activityId := none, message := none }, st)
    recordsSearch := Except.ok { draft := none, message := none }
    recordsRequest := Except.ok { draft := none, message := none }
    legalResearch := Except.ok { summary := none }
    internalResearch := Except.ok "answer" }

/-- Intent analysis resolving to `research_external`, used to refute claim
C6. -/
def c6Analysis : AnalysisData :=
  { isContinuation := some false, topic := some "Research",
    actionType := some "research_external",
    agentType := some "LegalResearcher",
    requiresApproval := some false,
    reasoning := some "needs web research" }

/-- Oracle set in which the remote legal-research delegation raises, used to
refute claim C6. -/
def c6Oracles : Oracles :=
  { analysisResult := Except.ok (some c6Analysis)
    guruDraft := Except.ok "Dear Client,"
    guruClientFetch := none
    evidenceCall := fun st => Except.ok ({ activityId := none, message := none }, st)
    recordsSearch := Except.ok { draft := none, message := none }
    recordsRequest := Except.ok { draft := none, message := none }
    legalResearch := Except.error "Remote handler timeout"
    internalResearch := Except.ok "answer" }

end Orchestrator

namespace HostAgent

open Store

/-- A JSON-ish value carried by `data` parts; `truthy` models Python
truthiness of `metadata.get('requires_approval')`. -/
inductive AVal where
  | vBool (b : Bool)
  | vStr (s : String)
  | vNum (n : Int)
  deriving Repr, DecidableEq

/-- Python truthiness of an optional dictionary value (`None`/missing is
falsy). -/
def truthy : Option AVal → Bool
  | none => false
  | some (AVal.vBool b) => b
  | some (AVal.vStr s) => s ≠ ""
  | some (AVal.vNum n) => n ≠ 0

/-- One part of an A2A message or artifact: a text part, a data part
(dictionary payload), or anything else (skipped by the source's
type-sniffing). -/
inductive TaskPart where
  | textPart (s : String)
  | dataPart (kvs : List (String × AVal))
  | otherPart
  deriving Repr, DecidableEq

/-- Status of a remote A2A task: a state string and an optional message
holding parts. -/
structure TaskStatus where
  state : String
  message : Option (List TaskPart)
  deriving Repr, DecidableEq

/-- A remote A2A `Task` as consumed by `delegate_to_agent`: id, optional
status, and artifacts (each a list of parts). -/
structure A2ATask where
  id : String
  status : Option TaskStatus
  artifacts : List (List TaskPart)
  deriving Repr, DecidableEq

/-- The merged `structured_data` dictionary, as a lookup function
(Python `dict` key semantics). -/
def StrMap : Type := String → Option AVal

/-- The empty dictionary. -/
def emptyMap : StrMap := fun _ => none

/-- Python `dict.update(d)`: every key of `kvs` (later entries last)
overwrites the accumulated map. -/
def dictUpdate (m : StrMap) (kvs : List (String × AVal)) : StrMap :=
  kvs.foldl (fun acc kv => fun k => if k = kv.1 then some kv.2 else acc k) m

/-- The literal placeholder content `delegate_to_agent` starts from. -/
def placeholderContent : String := "Task submitted successfully"

/-- One iteration of the status-message part loop of `delegate_to_agent`
(`backend/agents/orchestrator/host_agent.py`, lines 281-294): a text part
overwrites `content`; a data part is merged into `metadata`. -/
def statusStep : String × StrMap → TaskPart → String × StrMap
  | (_, m), TaskPart.textPart s => (s, m)
  | (c, m), TaskPart.dataPart kvs => (c, dictUpdate m kvs)
  | acc, TaskPart.otherPart => acc

/-- The status-message part loop. -/
def foldStatusParts (acc : String × StrMap) (parts : List TaskPart) :
    String × StrMap :=
  parts.foldl statusStep acc

/-- One iteration of the artifact part loop (lines 297-315): a text part
overwrites `content` ONLY while `content` still equals the placeholder;
data parts merge as before. -/
def artifactStep : String × StrMap → TaskPart → String × StrMap
  | (c, m), TaskPart.textPart s =>
      ((if c = placeholderContent then s else c), m)
  | (c, m), TaskPart.dataPart kvs => (c, dictUpdate m kvs)
  | acc, TaskPart.otherPart => acc

/-- The artifact part loop over one artifact's parts. -/
def foldArtifactParts (acc : String × StrMap) (parts : List TaskPart) :
    String × StrMap :=
  parts.foldl artifactStep acc

/-- The parts looped over by the status-message phase of
`delegate_to_agent`: the source guards with
`if task.status and task.status.message:`, so an absent status or message
contributes no parts. -/
def statusPartsOf (t : A2ATask) : List TaskPart :=
  match t.status with
  | some ts => ts.message.getD []
  | none => []

/-- Canonical result envelope produced by `delegate_to_agent` /
`handle_general_query`. -/
structure DelegateResult where
  success : Bool
  agent : String
  content : String
  metadata : StrMap
  taskId : Option String
  statusState : Option String
  requiresApproval : Option Bool

/-- The `Task` normalization of `delegate_to_agent`
(`backend/agents/orchestrator/host_agent.py`, lines 259-334): start from
the placeholder content and an empty map, process the status-message parts,
then every artifact's parts, and decide `requires_approval` from the merged
map's truthiness or an `input_required` task state. -/
def normalizeTask (agentName : String) (t : A2ATask) : DelegateResult :=
  let init := (placeholderContent, emptyMap)
  let afterStatus := foldStatusParts init (statusPartsOf t)
  let afterArtifacts := t.artifacts.foldl foldArtifactParts afterStatus
  let ra := truthy (afterArtifacts.2 "requires_approval") ||
    (match t.status with
     | some ts => ts.state = "input_required"
     | none => false)
  { success := true
    agent := agentName
    content := afterArtifacts.1
    metadata := afterArtifacts.2
    taskId := some t.id
    statusState := t.status.map (fun ts => ts.state)
    requiresApproval := some ra }

/-- Observable outcomes of `RemoteAgentConnection.send_message` as consumed
by `delegate_to_agent`: the call raised (transport error, timeout, JSON-RPC
error), returned a `Task`, returned a non-`Task` result, or returned an
unexpected response shape. -/
inductive SendOutcome where
  | raised (e : String)
  | taskResult (t : A2ATask)
  | directResult (s : String)
  | unexpected
  deriving Repr, DecidableEq

/-- `delegate_to_agent(agent_name, ...)` (lines 217-358): an unknown agent
name raises `ValueError` BEFORE the try block (so it propagates); inside
the try, any send exception is caught and converted to a `success=False`
envelope. -/
def delegate_to_agent (known : List String) (agentName : String)
    (outcome : SendOutcome) : Except String DelegateResult :=
  if ¬ known.contains agentName then
    Except.error ("Agent \x27" ++ agentName ++ "\x27 not found.")
  else
    Except.ok (match outcome with
      | SendOutcome.raised e =>
          { success := false, agent := agentName,
            content := "Error communicating with " ++ agentName ++ ": " ++ e,
            metadata := fun k => if k = "error" then some (AVal.vStr e) else none,
            taskId := none, statusState := none, requiresApproval := none }
      | SendOutcome.taskResult t => normalizeTask agentName t
      | SendOutcome.directResult s =>
          { success := true, agent := agentName, content := s,
            metadata := emptyMap, taskId := none, statusState := none,
            requiresApproval := none }
      | SendOutcome.unexpected =>
          { success := false, agent := agentName,
            content := "Unexpected response type from " ++ agentName,
            metadata := emptyMap, taskId := none, statusState := none,
            requiresApproval := none })

/-- The intent-analysis dictionary of `HostOrchestrator.analyze_intent`,
with `Option` fields for `.get` defaults. -/
structure HostAnalysis where
  agentName : Option String
  actionType : Option String
  isContinuation : Option Bool
  reasoning : Option String
  requiresApproval : Option Bool
  deriving Repr, DecidableEq

/-- The fallback dictionary of `HostOrchestrator.analyze_intent`
(`backend/agents/orchestrator/host_agent.py`, lines 206-215): returned for
ANY exception (inference raising, or parse failure), with a reasoning
string that embeds the exception text. -/
def hostAnalysisFallback (e : String) : HostAnalysis :=
  { agentName := some "Orchestrator"
    actionType := some "general_query"
    isContinuation := some false
    reasoning := some ("Failed to analyze intent: " ++ e)
    requiresApproval := some false }

/-- `HostOrchestrator.analyze_intent`: the whole inference-and-parse step is
wrapped in one try/except, so every failure becomes the fallback. -/
def hostAnalyzeIntent (outcome : Except String HostAnalysis) : HostAnalysis :=
  match outcome with
  | Except.ok a => a
  | Except.error e => hostAnalysisFallback e

/-- `HostOrchestrator.handle_general_query` (lines 360-389): exceptions are
caught and converted to a `success=False` envelope. -/
def handle_general_query (outcome : Except String String) : DelegateResult :=
  match outcome with
  | Except.ok content =>
      { success := true, agent := "Orchestrator", content := content,
        metadata := emptyMap, taskId := none, statusState := none,
        requiresApproval := none }
  | Except.error e =>
      { success := false, agent := "Orchestrator", content := "Error: " ++ e,
        metadata := fun k => if k = "error" then some (AVal.vStr e) else none,
        taskId := none, statusState := none, requiresApproval := none }

/-- The response envelope of `HostOrchestrator.process`. -/
structure HostResponse where
  status : String
  sessionId : String
  agentType : String
  actionType : String
  requiresApproval : Bool
  result : String
  reasoning : Option String
  isContinuation : Bool
  deriving Repr, DecidableEq

/-- `HostOrchestrator.process(case_id, query, ...)`
(`backend/agents/orchestrator/host_agent.py`, lines 391-441): analyze
intent (never fails), route to `handle_general_query` or
`delegate_to_agent`, and build the envelope with
`status = 'success' if result['success'] else 'error'`.  `process` makes no
persistence call of any kind, so the threaded `DbState` is returned
untouched; `fallbackSession` stands for the `uuid4` generated when no
session id is supplied. -/
def hostProcess (known : List String)
    (analysisOutcome : Except String HostAnalysis)
    (generalOutcome : Except String String)
    (sendOutcome : SendOutcome)
    (caseId query caseContext : String) (sessionIdOpt : Option String)
    (fallbackSession : String) (st : DbState) :
    Except String ((HostResponse × DbState)) :=
  let sessionId := sessionIdOpt.getD fallbackSession
  let analysis := hostAnalyzeIntent analysisOutcome
  let agentName := analysis.agentName.getD "Orchestrator"
  let actionType := analysis.actionType.getD "general_query"
  let resultE : Except String DelegateResult :=
    if agentName = "Orchestrator" || actionType = "general_query" then
      Except.ok (handle_general_query generalOutcome)
    else
      delegate_to_agent known agentName sendOutcome
  match resultE with
  | Except.error e => Except.error e
  | Except.ok result =>
      Except.ok
        ({ status := if result.success then "success" else "error"
           sessionId := sessionId
           agentType := agentName
           actionType := actionType
           requiresApproval := analysis.requiresApproval.getD false
           result := result.content
           reasoning := analysis.reasoning
           isContinuation := analysis.isContinuation.getD false }, st)

/-- Text extracted from a part, if it is a text part. -/
def textOf : TaskPart → Option String
  | TaskPart.textPart s => some s
  | _ => none

/-- The status-message text parts, in order. -/
def statusTexts (t : A2ATask) : List String :=
  (statusPartsOf t).filterMap textOf

/-- The last element of a list, or the default `c` when the list is empty. -/
def lastOr (c : String) : List String → String
  | [] => c
  | s :: rest => lastOr s rest

/-- All artifact parts flattened, in artifact-then-part order. -/
def concatParts : List (List TaskPart) → List TaskPart
  | [] => []
  | parts :: rest => parts ++ concatParts rest

/-- The artifact text parts, in artifact-then-part order. -/
def artifactTexts (t : A2ATask) : List String :=
  (concatParts t.artifacts).filterMap textOf

/-- The dictionary entries contributed by the `data` parts of a part list,
in order. -/
def dataEntriesOf : List TaskPart → List (String × AVal)
  | [] => []
  | TaskPart.dataPart kvs :: rest => kvs ++ dataEntriesOf rest
  | _ :: rest => dataEntriesOf rest

/-- All `data`-part dictionary entries in encounter order (status message
first, then artifacts). -/
def allDataEntries (t : A2ATask) : List (String × AVal) :=
  dataEntriesOf (statusPartsOf t ++ concatParts t.artifacts)

/-- Specification-side reading of "later-encountered keys overwrite earlier
ones": the value of `k` is the LAST binding of `k` in the entry sequence. -/
def lookupLast (entries : List (String × AVal)) (k : String) : Option AVal :=
  (entries.reverse.find? (fun kv => kv.1 = k)).map (fun kv => kv.2)

/-- Concrete task used to witness claim C8: a status text, a placeholder
check, overlapping data keys in status and artifact parts, and an
`input_required`-free state. -/
def c8Task : A2ATask :=
  { id := "task-7"
    status := some
      { state := "completed"
        message := some
          [TaskPart.textPart "Draft ready for review",
           TaskPart.dataPart [("requires_approval", AVal.vBool true),
                              ("channel", AVal.vStr "email")]] }
    artifacts :=
      [[TaskPart.textPart "artifact body",
        TaskPart.dataPart [("channel", AVal.vStr "letter")]]] }

end HostAgent

section BestPairLemmas

open TenderCoordinator

theorem bestPair_foldl_spec (t : List (String × ℚ)) (b : String × ℚ) :
    (t.foldl (fun b x => if b.2 < x.2 then x else b) b = b ∨
      t.foldl (fun b x => if b.2 < x.2 then x else b) b ∈ t) ∧
    b.2 ≤ (t.foldl (fun b x => if b.2 < x.2 then x else b) b).2 ∧
    ∀ x ∈ t, x.2 ≤ (t.foldl (fun b x => if b.2 < x.2 then x else b) b).2 := by
  induction t generalizing b with
  | nil => simp
  | cons h rest ih =>
    simp only [List.foldl_cons, List.mem_cons]
    by_cases hlt : b.2 < h.2
    · simp only [hlt, if_pos]
      obtain ⟨hmem, hle, hall⟩ := ih h
      refine ⟨?_, le_of_lt (lt_of_lt_of_le hlt hle), ?_⟩
      · rcases hmem with h1 | h1
        · exact Or.inr (Or.inl h1)
        · exact Or.inr (Or.inr h1)
      · intro x hx
        rcases hx with rfl | hx
        · exact hle
        · exact hall x hx
    · simp only [hlt, if_neg, not_false_iff]
      obtain ⟨hmem, hle, hall⟩ := ih b
      refine ⟨?_, hle, ?_⟩
      · rcases hmem with h1 | h1
        · exact Or.inl h1
        · exact Or.inr (Or.inr h1)
      · intro x hx
        rcases hx with rfl | hx
        · exact le_trans (le_of_not_lt hlt) hle
        · exact hall x hx

theorem bestPair_mem (l : List (String × ℚ)) (hl : l ≠ []) :
    bestPair l ∈ l := by
  cases l with
  | nil => exact absurd rfl hl
  | cons h t =>
    obtain ⟨hmem, _, _⟩ := bestPair_foldl_spec t h
    show t.foldl (fun b x => if b.2 < x.2 then x else b) h ∈ h :: t
    rcases hmem with h1 | h1
    · rw [h1]; exact List.mem_cons_self h t
    · exact List.mem_cons_of_mem h h1

theorem bestPair_le (l : List (String × ℚ)) (x : String × ℚ) (hx : x ∈ l) :
    x.2 ≤ (bestPair l).2 := by
  cases l with
  | nil => cases hx
  | cons h t =>
    obtain ⟨_, hle, hall⟩ := bestPair_foldl_spec t h
    rcases List.mem_cons.mp hx with rfl | hx'
    · exact hle
    · exact hall x hx'

end BestPairLemmas

section SortLemmas

open Store

theorem insertByTsDesc_append (m : MessageRow) (l : List MessageRow)
    (h : ∀ b ∈ l, ¬ b.timestamp ≤ m.timestamp) :
    insertByTsDesc m l = l ++ [m] := by
  induction l with
  | nil => rfl
  | cons b t ih =>
    have hb : ¬ b.timestamp ≤ m.timestamp := h b (List.mem_cons_self b t)
    simp only [insertByTsDesc, if_neg hb, List.cons_append]
    rw [ih (fun x hx => h x (List.mem_cons_of_mem b hx))]

theorem sortByTsDesc_of_strictly_increasing (l : List MessageRow)
    (h : l.Pairwise (fun a b => a.timestamp < b.timestamp)) :
    sortByTsDesc l = l.reverse := by
  induction l with
  | nil => rfl
  | cons a t ih =>
    have ha : ∀ b ∈ t, a.timestamp < b.timestamp := (List.pairwise_cons.mp h).1
    have ht : t.Pairwise (fun a b => a.timestamp < b.timestamp) :=
      (List.pairwise_cons.mp h).2
    show insertByTsDesc a (sortByTsDesc t) = (a :: t).reverse
    rw [ih ht, insertByTsDesc_append]
    · simp
    · intro b hb
      exact not_le_of_lt (ha b (List.mem_reverse.mp hb))

theorem reverse_take_reverse_suffix {α : Type} (l : List α) (n : Nat) :
    (l.reverse.take n).reverse <:+ l := by
  refine ⟨(l.reverse.drop n).reverse, ?_⟩
  rw [← List.reverse_append, List.take_append_drop, List.reverse_reverse]

end SortLemmas

namespace HostAgent

theorem dictUpdate_append (m : StrMap) (a b : List (String × AVal)) :
    dictUpdate m (a ++ b) = dictUpdate (dictUpdate m a) b := by
  simp [dictUpdate, List.foldl_append]

theorem find?_append_or {α : Type} (p : α → Bool) (l₁ l₂ : List α) :
    (l₁ ++ l₂).find? p =
      match l₁.find? p with
      | some x => some x
      | none => l₂.find? p := by
  induction l₁ with
  | nil => simp
  | cons h t ih =>
    by_cases hp : p h
    · simp [List.find?, hp]
    · simp only [List.cons_append, List.find?]
      rw [Bool.not_eq_true] at hp
      simp [hp, ih]

theorem lookupLast_cons (e : String × AVal) (rest : List (String × AVal))
    (k : String) :
    lookupLast (e :: rest) k =
      match lookupLast rest k with
      | some v => some v
      | none => if e.1 = k then some e.2 else none := by
  unfold lookupLast
  rw [List.reverse_cons, find?_append_or]
  rcases hfind : (rest.reverse.find? (fun kv => decide (kv.1 = k))) with _ | kv
  · simp only [hfind]
    by_cases hk : e.1 = k <;> simp [List.find?, hk]
  · simp only [hfind]
    simp

theorem dictUpdate_lookup (es : List (String × AVal)) (m : StrMap) (k : String) :
    dictUpdate m es k =
      match lookupLast es k with
      | some v => some v
      | none => m k := by
  induction es generalizing m with
  | nil => rfl
  | cons e rest ih =>
    have hstep : dictUpdate m (e :: rest) =
        dictUpdate (fun k' => if k' = e.1 then some e.2 else m k') rest := rfl
    rw [hstep, ih, lookupLast_cons]
    rcases lookupLast rest k with _ | v
    · by_cases hk : e.1 = k
      · simp [hk]
      · have hk' : ¬ k = e.1 := fun h => hk h.symm
        simp [hk, hk']
    · rfl

theorem dataEntriesOf_append (a b : List TaskPart) :
    dataEntriesOf (a ++ b) = dataEntriesOf a ++ dataEntriesOf b := by
  induction a with
  | nil => rfl
  | cons p rest ih =>
    cases p <;> simp [dataEntriesOf, ih]

theorem foldStatusParts_snd (parts : List TaskPart) (c : String) (m : StrMap) :
    (foldStatusParts (c, m) parts).2 = dictUpdate m (dataEntriesOf parts) := by
  induction parts generalizing c m with
  | nil => rfl
  | cons p rest ih =>
    cases p with
    | textPart s =>
        show (foldStatusParts (s, m) rest).2 = dictUpdate m (dataEntriesOf (TaskPart.textPart s :: rest))
        rw [ih]; rfl
    | dataPart kvs =>
        show (foldStatusParts (c, dictUpdate m kvs) rest).2 = _
        rw [ih]
        show dictUpdate (dictUpdate m kvs) (dataEntriesOf rest) =
          dictUpdate m (kvs ++ dataEntriesOf rest)
        rw [dictUpdate_append]
    | otherPart =>
        show (foldStatusParts (c, m) rest).2 = _
        rw [ih]; rfl

theorem foldArtifactParts_snd (parts : List TaskPart) (c : String) (m : StrMap) :
    (foldArtifactParts (c, m) parts).2 = dictUpdate m (dataEntriesOf parts) := by
  induction parts generalizing c m with
  | nil => rfl
  | cons p rest ih =>
    cases p with
    | textPart s =>
        show (foldArtifactParts ((if c = placeholderContent then s else c), m) rest).2 = _
        rw [ih]; rfl
    | dataPart kvs =>
        show (foldArtifactParts (c, dictUpdate m kvs) rest).2 = _
        rw [ih]
        show dictUpdate (dictUpdate m kvs) (dataEntriesOf rest) =
          dictUpdate m (kvs ++ dataEntriesOf rest)
        rw [dictUpdate_append]
    | otherPart =>
        show (foldArtifactParts (c, m) rest).2 = _
        rw [ih]; rfl

theorem foldStatusParts_fst (parts : List TaskPart) (c : String) (m : StrMap) :
    (foldStatusParts (c, m) parts).1 = lastOr c (parts.filterMap textOf) := by
  induction parts generalizing c m with
  | nil => rfl
  | cons p rest ih =>
    cases p with
    | textPart s =>
        show (foldStatusParts (s, m) rest).1 = _
        rw [ih]
        simp [textOf, lastOr]
    | dataPart kvs =>
        show (foldStatusParts (c, dictUpdate m kvs) rest).1 = _
        rw [ih]
        simp [textOf]
    | otherPart =>
        show (foldStatusParts (c, m) rest).1 = _
        rw [ih]
        simp [textOf]

theorem foldArtifactParts_fst_stable (parts : List TaskPart) (c : String)
    (m : StrMap) (h : c ≠ placeholderContent) :
    (foldArtifactParts (c, m) parts).1 = c := by
  induction parts generalizing m with
  | nil => rfl
  | cons p rest ih =>
    cases p with
    | textPart s =>
        show (foldArtifactParts ((if c = placeholderContent then s else c), m) rest).1 = c
        rw [if_neg h]
        exact ih m
    | dataPart kvs =>
        show (foldArtifactParts (c, dictUpdate m kvs) rest).1 = c
        exact ih (dictUpdate m kvs)
    | otherPart =>
        show (foldArtifactParts (c, m) rest).1 = c
        exact ih m

theorem foldArtifactParts_fst_ph (parts : List TaskPart) (m : StrMap) :
    (foldArtifactParts (placeholderContent, m) parts).1 =
      ((parts.filterMap textOf).find? (fun s => s != placeholderContent)).getD
        placeholderContent := by
  induction parts generalizing m with
  | nil => rfl
  | cons p rest ih =>
    cases p with
    | textPart s =>
        show (foldArtifactParts ((if placeholderContent = placeholderContent then s
            else placeholderContent), m) rest).1 = _
        rw [if_pos rfl]
        by_cases hs : s = placeholderContent
        · subst hs
          rw [ih]
          simp [textOf]
        · rw [foldArtifactParts_fst_stable rest s m hs]
          have hp : (fun x => x != placeholderContent) s = true := by
            simp [hs]
          simp [textOf, List.find?, hp]
    | dataPart kvs =>
        show (foldArtifactParts (placeholderContent, dictUpdate m kvs) rest).1 = _
        rw [ih]
        simp [textOf]
    | otherPart =>
        show (foldArtifactParts (placeholderContent, m) rest).1 = _
        rw [ih]
        simp [textOf]

theorem foldl_artifacts_concat (arts : List (List TaskPart))
    (acc : String × StrMap) :
    arts.foldl foldArtifactParts acc = foldArtifactParts acc (concatParts arts) := by
  induction arts generalizing acc with
  | nil => rfl
  | cons parts rest ih =>
    show rest.foldl foldArtifactParts (foldArtifactParts acc parts) = _
    rw [ih]
    show foldArtifactParts (foldArtifactParts acc parts) (concatParts rest) =
      foldArtifactParts acc (parts ++ concatParts rest)
    unfold foldArtifactParts
    rw [List.foldl_append]

end HostAgent

namespace HostAgent

theorem foldStatusParts_fst_acc (parts : List TaskPart) (acc : String × StrMap) :
    (foldStatusParts acc parts).1 = lastOr acc.1 (parts.filterMap textOf) := by
  rcases acc with ⟨c, m⟩
  exact foldStatusParts_fst parts c m

theorem foldStatusParts_snd_acc (parts : List TaskPart) (acc : String × StrMap) :
    (foldStatusParts acc parts).2 = dictUpdate acc.2 (dataEntriesOf parts) := by
  rcases acc with ⟨c, m⟩
  exact foldStatusParts_snd parts c m

theorem foldArtifactParts_snd_acc (parts : List TaskPart) (acc : String × StrMap) :
    (foldArtifactParts acc parts).2 = dictUpdate acc.2 (dataEntriesOf parts) := by
  rcases acc with ⟨c, m⟩
  exact foldArtifactParts_snd parts c m

theorem foldArtifactParts_fst_acc_stable (parts : List TaskPart)
    (acc : String × StrMap) (h : acc.1 ≠ placeholderContent) :
    (foldArtifactParts acc parts).1 = acc.1 := by
  rcases acc with ⟨c, m⟩
  exact foldArtifactParts_fst_stable parts c m h

theorem foldArtifactParts_fst_acc_ph (parts : List TaskPart)
    (acc : String × StrMap) (h : acc.1 = placeholderContent) :
    (foldArtifactParts acc parts).1 =
      ((parts.filterMap textOf).find? (fun s => s != placeholderContent)).getD
        placeholderContent := by
  rcases acc with ⟨c, m⟩
  simp only at h
  subst h
  exact foldArtifactParts_fst_ph parts m

theorem normalizeTask_metadata_fun (agentName : String) (t : A2ATask) :
    (normalizeTask agentName t).metadata = dictUpdate emptyMap (allDataEntries t) := by
  show (t.artifacts.foldl foldArtifactParts
    (foldStatusParts (placeholderContent, emptyMap) (statusPartsOf t))).2 = _
  rw [foldl_artifacts_concat, foldArtifactParts_snd_acc, foldStatusParts_snd_acc]
  show dictUpdate (dictUpdate emptyMap (dataEntriesOf (statusPartsOf t)))
      (dataEntriesOf (concatParts t.artifacts)) = _
  rw [← dictUpdate_append, ← dataEntriesOf_append]
  rfl

theorem normalizeTask_content_eq (agentName : String) (t : A2ATask) :
    (normalizeTask agentName t).content =
      (foldArtifactParts (foldStatusParts (placeholderContent, emptyMap)
        (statusPartsOf t)) (concatParts t.artifacts)).1 := by
  show (t.artifacts.foldl foldArtifactParts
    (foldStatusParts (placeholderContent, emptyMap) (statusPartsOf t))).1 = _
  rw [foldl_artifacts_concat]

/-- Claim C8: the remote-response normalization of
`HostOrchestrator.delegate_to_agent` produces one canonical envelope in
which (i) `structured_data` merges every `data` part from the status message
and the artifacts by key, later-encountered keys overwriting earlier ones
(the resulting lookup returns the LAST binding of each key); (ii)
`requires_approval` is true exactly when the merged map carries a truthy
`requires_approval` entry or the task's own status state is
`input_required`; (iii) `content` is the (last) status-message text when
that text exists and differs from the placeholder `"Task submitted
successfully"`, and otherwise falls back to the first artifact text that
differs from the placeholder. -/
theorem C8_response_normalization (agentName : String) (t : A2ATask) :
    (∀ k, (normalizeTask agentName t).metadata k = lookupLast (allDataEntries t) k) ∧
    ((normalizeTask agentName t).requiresApproval =
      some (truthy (lookupLast (allDataEntries t) "requires_approval") ||
        (match t.status with
         | some ts => ts.state = "input_required"
         | none => false))) ∧
    (lastOr placeholderContent (statusTexts t) ≠ placeholderContent →
      (normalizeTask agentName t).content = lastOr placeholderContent (statusTexts t)) ∧
    (lastOr placeholderContent (statusTexts t) = placeholderContent →
      (normalizeTask agentName t).content =
        ((artifactTexts t).find? (fun s => s != placeholderContent)).getD
          placeholderContent) := by
  have hlookup : ∀ k, dictUpdate emptyMap (allDataEntries t) k =
      lookupLast (allDataEntries t) k := by
    intro k
    rw [dictUpdate_lookup]
    rcases lookupLast (allDataEntries t) k with _ | v <;> rfl
  have hmeta : ∀ k, (normalizeTask agentName t).metadata k =
      lookupLast (allDataEntries t) k := by
    intro k
    rw [normalizeTask_metadata_fun]
    exact hlookup k
  have hstatusfst : (foldStatusParts (placeholderContent, emptyMap)
      (statusPartsOf t)).1 = lastOr placeholderContent (statusTexts t) := by
    rw [foldStatusParts_fst_acc]
    rfl
  refine ⟨hmeta, ?_, ?_, ?_⟩
  · have hra : (normalizeTask agentName t).requiresApproval =
        some (truthy ((normalizeTask agentName t).metadata "requires_approval") ||
          (match t.status with
           | some ts => ts.state = "input_required"
           | none => false)) := rfl
    rw [hra, hmeta]
  · intro h
    rw [normalizeTask_content_eq, foldArtifactParts_fst_acc_stable, hstatusfst]
    rw [hstatusfst]
    exact h
  · intro h
    rw [normalizeTask_content_eq, foldArtifactParts_fst_acc_ph]
    · rfl
    · rw [hstatusfst]
      exact h

/-- Witness for claim C8 at `c8Task`: the status text wins, the later
artifact `channel` binding overwrites the status one, and
`requires_approval` is taken from the merged map. -/
theorem C8_response_normalization_witness :
    (normalizeTask "Client Communication Agent" c8Task).metadata "channel" =
      lookupLast (allDataEntries c8Task) "channel" ∧
    (normalizeTask "Client Communication Agent" c8Task).content =
      lastOr placeholderContent (statusTexts c8Task) := by
  refine ⟨(C8_response_normalization "Client Communication Agent" c8Task).1 "channel", ?_⟩
  exact (C8_response_normalization "Client Communication Agent" c8Task).2.2.1
    (by decide)

end HostAgent

namespace Ledger

/-- Counterexample to claim C1: `update_activity_status` called on an
activity whose status is terminal (`completed`) reports success (`True`,
not an error) and silently overwrites the stored status, `updated_at`,
`approved_by` and `execution_result`; called on an `activity_id` absent
from the ledger it also reports success instead of failing. -/
theorem C1_counterexample :
    isTerminal c1Row.status = true ∧
    (update_activity_status [c1Row] 10 1 "approved" (some "boss@example.com")
        none none).2 = true ∧
    (update_activity_status [c1Row] 10 1 "approved" (some "boss@example.com")
        none none).1.map ActivityRow.status = ["approved"] ∧
    (update_activity_status [c1Row] 10 1 "approved" (some "boss@example.com")
        none none).1.map ActivityRow.updatedAt = [10] ∧
    (update_activity_status [c1Row] 10 1 "approved" (some "boss@example.com")
        none none).1.map ActivityRow.executionResult = [none] ∧
    (update_activity_status [c1Row] 10 99 "approved" (some "boss@example.com")
        none none).2 = true ∧
    (update_activity_status [c1Row] 10 99 "approved" (some "boss@example.com")
        none none).1 = [c1Row] := by
  decide

/-- Claim C1 as amended: `update_activity_status` performs NO transition
validation.  It returns `True` for every input; an `activity_id` matching
no row leaves the ledger unchanged (still returning `True`, no error); and
every matching row - terminal or not - has its status and audit fields
silently overwritten by `applyStatusUpdate`. -/
theorem C1_amended_no_validation (acts : List ActivityRow) (now aid : Nat)
    (status : String) (ab er em : Option String) :
    (update_activity_status acts now aid status ab er em).2 = true ∧
    (aid ∉ acts.map ActivityRow.activityId →
      (update_activity_status acts now aid status ab er em).1 = acts) ∧
    (∀ a ∈ acts, a.activityId = aid →
      applyStatusUpdate now status ab er em a ∈
        (update_activity_status acts now aid status ab er em).1 ∧
      (applyStatusUpdate now status ab er em a).status = status ∧
      (applyStatusUpdate now status ab er em a).updatedAt = now) := by
  refine ⟨rfl, ?_, ?_⟩
  · intro h
    show acts.map (fun a => if a.activityId = aid then
        applyStatusUpdate now status ab er em a else a) = acts
    have hall : ∀ a ∈ acts, (if a.activityId = aid then
        applyStatusUpdate now status ab er em a else a) = a := by
      intro a ha
      rw [if_neg]
      intro heq
      exact h (heq ▸ List.mem_map_of_mem ActivityRow.activityId ha)
    rw [List.map_congr_left hall]
    exact List.map_id acts
  · intro a ha heq
    refine ⟨?_, rfl, rfl⟩
    have hmem := List.mem_map_of_mem (fun a => if a.activityId = aid then
      applyStatusUpdate now status ab er em a else a) ha
    simp only [if_pos heq] at hmem
    exact hmem

/-- Witness for the amended claim C1 at a concrete terminal row and a
concrete unknown id. -/
theorem C1_amended_no_validation_witness :
    (update_activity_status [c1Row] 10 99 "approved" (some "boss@example.com")
        none none).1 = [c1Row] ∧
    applyStatusUpdate 10 "approved" (some "boss@example.com") none none c1Row ∈
      (update_activity_status [c1Row] 10 1 "approved" (some "boss@example.com")
        none none).1 := by
  constructor
  · exact (C1_amended_no_validation [c1Row] 10 99 "approved"
      (some "boss@example.com") none none).2.1 (by decide)
  · exact ((C1_amended_no_validation [c1Row] 10 1 "approved"
      (some "boss@example.com") none none).2.2 c1Row (by decide) (by decide)).1

/-- Counterexample to claim C3: transitioning to `approved` with an
`execution_result` argument sets `execution_result` even though the new
status is neither `completed` nor `failed`; and transitioning to
`completed` wipes the stored `approved_by` (the column is assigned the
call's `approved_by` argument - `None` by default - on EVERY transition,
not only on `approved`/`rejected`). -/
theorem C3_counterexample :
    (update_activity_status [c3Row] 7 2 "approved" (some "boss@example.com")
        (some "already executed") none).1.map ActivityRow.executionResult =
      [some "already executed"] ∧
    c3Row.approvedBy = some "attorney@example.com" ∧
    (update_activity_status [c3Row] 7 2 "completed" none
        (some "ok") none).1.map ActivityRow.approvedBy = [none] := by
  decide

/-- Claim C3 as amended: on every call, matching rows get `status` and
`updated_at` (always refreshed) assigned; `approved_at` is set to the
current time ONLY when the new status is `approved` or `rejected` and is
preserved otherwise; but `approved_by`, `execution_result` and
`error_message` are overwritten with the call's arguments REGARDLESS of the
new status; every other column is unchanged, and rows with a different
`activity_id` are untouched (captured by the guarding `if`). -/
theorem C3_amended_frame (acts : List ActivityRow) (now aid : Nat)
    (status : String) (ab er em : Option String) :
    (update_activity_status acts now aid status ab er em).1 =
      acts.map (fun a => if a.activityId = aid then
        applyStatusUpdate now status ab er em a else a) ∧
    ∀ a : ActivityRow,
      (applyStatusUpdate now status ab er em a).updatedAt = now ∧
      (applyStatusUpdate now status ab er em a).status = status ∧
      (applyStatusUpdate now status ab er em a).approvedAt =
        (if status = "approved" ∨ status = "rejected" then some now
         else a.approvedAt) ∧
      (applyStatusUpdate now status ab er em a).approvedBy = ab ∧
      (applyStatusUpdate now status ab er em a).executionResult = er ∧
      (applyStatusUpdate now status ab er em a).errorMessage = em ∧
      (applyStatusUpdate now status ab er em a).activityId = a.activityId ∧
      (applyStatusUpdate now status ab er em a).caseId = a.caseId ∧
      (applyStatusUpdate now status ab er em a).agentType = a.agentType ∧
      (applyStatusUpdate now status ab er em a).agentAction = a.agentAction ∧
      (applyStatusUpdate now status ab er em a).prompt = a.prompt ∧
      (applyStatusUpdate now status ab er em a).agentResponse = a.agentResponse ∧
      (applyStatusUpdate now status ab er em a).actionData = a.actionData ∧
      (applyStatusUpdate now status ab er em a).requiresApproval = a.requiresApproval ∧
      (applyStatusUpdate now status ab er em a).sessionId = a.sessionId ∧
      (applyStatusUpdate now status ab er em a).createdAt = a.createdAt := by
  exact ⟨rfl, fun a =>
    ⟨rfl, rfl, rfl, rfl, rfl, rfl, rfl, rfl, rfl, rfl, rfl, rfl, rfl, rfl, rfl, rfl⟩⟩

end Ledger

namespace Store

/-- Claim C7: for every session table state whose per-session rows carry
strictly increasing timestamps in append order (which `store_message`
guarantees under a monotone clock), `get_recent_messages(session_id, N)`
returns at most `N` `{role, content}` records, and - being the descending
`timestamp` selection of the `N` most recent rows, reversed - that sequence
is a suffix of the session's full history in append order. -/
theorem C7_recent_messages_suffix (st : DbState) (sid : String) (n : Nat)
    (h : (st.messages.filter (fun m => m.sessionId = sid)).Pairwise
      (fun a b => a.timestamp < b.timestamp)) :
    (get_recent_messages st sid n).length ≤ n ∧
    get_recent_messages st sid n <:+ sessionHistory st sid := by
  unfold get_recent_messages sessionHistory
  rw [sortByTsDesc_of_strictly_increasing _ h]
  constructor
  · rw [List.length_map, List.length_reverse, List.length_take]
    exact min_le_left _ _
  · exact List.IsSuffix.map _
      (reverse_take_reverse_suffix (st.messages.filter (fun m => m.sessionId = sid)) n)

/-- Witness for claim C7 at `c7State`: the two most recent messages come
back oldest first as a suffix of the history. -/
theorem C7_recent_messages_suffix_witness :
    (get_recent_messages c7State "sess-0" 2).length ≤ 2 ∧
    get_recent_messages c7State "sess-0" 2 <:+ sessionHistory c7State "sess-0" := by
  exact C7_recent_messages_suffix c7State "sess-0" 2 (by decide)

end Store

namespace TenderCoordinator

theorem confidenceScores_ne_nil (input : String) :
    confidenceScores input ≠ [] := by
  unfold confidenceScores task_patterns
  simp

theorem confidenceScores_names (input : String) :
    ∀ p ∈ confidenceScores input, p.1 ≠ "unknown" := by
  intro p hp
  unfold confidenceScores at hp
  rcases List.mem_map.mp hp with ⟨q, hq, rfl⟩
  have : ∀ q ∈ task_patterns, q.1 ≠ "unknown" := by decide
  exact this q hq

theorem detection_unfold (input : String) :
    intelligent_task_type_detection input =
      (if (bestPair (confidenceScores input)).2 < (1 : ℚ) / 10 then
        { taskType := "unknown",
          confidence := (bestPair (confidenceScores input)).2 }
       else
        { taskType := (bestPair (confidenceScores input)).1,
          confidence := (bestPair (confidenceScores input)).2 }) := rfl

theorem detection_confidence_eq (input : String) :
    (intelligent_task_type_detection input).confidence =
      (bestPair (confidenceScores input)).2 := by
  rw [detection_unfold]
  split <;> rfl

theorem detection_taskType_eq (input : String) :
    (intelligent_task_type_detection input).taskType =
      (if (bestPair (confidenceScores input)).2 < (1 : ℚ) / 10 then "unknown"
       else (bestPair (confidenceScores input)).1) := by
  rw [detection_unfold]
  split <;> rfl

/-- Claim C9: the local keyword classifier is a pure function of its input
(determinism is immediate from it being a Lean function): every category's
confidence equals `(matched keyword count) / (total keywords for that
category)` and lies in `[0,1]`; the returned confidence is the best score,
no category scores higher; the returned category is `"unknown"` exactly
when the best confidence is below the fixed `0.1` threshold; and above the
threshold the returned `(category, confidence)` pair is one of the scored
categories. -/
theorem C9_keyword_classifier (input : String) :
    (∀ name kws, (name, kws) ∈ task_patterns →
      0 ≤ categoryConfidence (strLower input) kws ∧
      categoryConfidence (strLower input) kws ≤ 1 ∧
      categoryConfidence (strLower input) kws =
        (keywordScore (strLower input) kws : ℚ) / (kws.length : ℚ)) ∧
    (intelligent_task_type_detection input).confidence =
      (bestPair (confidenceScores input)).2 ∧
    (∀ p ∈ confidenceScores input,
      p.2 ≤ (intelligent_task_type_detection input).confidence) ∧
    ((intelligent_task_type_detection input).taskType = "unknown" ↔
      (intelligent_task_type_detection input).confidence < 1 / 10) ∧
    (¬ (intelligent_task_type_detection input).confidence < 1 / 10 →
      ((intelligent_task_type_detection input).taskType,
        (intelligent_task_type_detection input).confidence) ∈
        confidenceScores input) := by
  have hconf := detection_confidence_eq input
  have htype := detection_taskType_eq input
  refine ⟨?_, hconf, ?_, ?_, ?_⟩
  · intro name kws _
    refine ⟨?_, ?_, rfl⟩
    · unfold categoryConfidence
      positivity
    · unfold categoryConfidence
      rcases Nat.eq_zero_or_pos kws.length with hlen | hlen
      · have hscore : keywordScore (strLower input) kws = 0 := by
          unfold keywordScore
          have := List.countP_le_length (fun k => strHasSub (strLower input) k)
            (l := kws)
          omega
        rw [hscore, hlen]
        norm_num
      · rw [div_le_one (by positivity)]
        have hle : keywordScore (strLower input) kws ≤ kws.length :=
          List.countP_le_length _
        exact_mod_cast hle
  · intro p hp
    rw [hconf]
    exact bestPair_le _ p hp
  · constructor
    · intro hu
      rw [hconf]
      by_contra hlt
      rw [htype, if_neg hlt] at hu
      exact confidenceScores_names input _
        (bestPair_mem _ (confidenceScores_ne_nil input)) hu
    · intro hlt
      rw [hconf] at hlt
      rw [htype, if_pos hlt]
  · intro hge
    rw [hconf] at hge
    rw [htype, if_neg hge, hconf]
    exact bestPair_mem _ (confidenceScores_ne_nil input)

/-- Witness for claim C9 at two concrete inputs: a clearly classified
request and an unclassifiable one. -/
theorem C9_keyword_classifier_witness :
    (0 ≤ categoryConfidence (strLower "Please draft an email to the client")
        ["schedule", "appointment", "meeting", "deposition", "call", "book",
         "arrange", "coordinate", "set up", "plan", "organize", "calendar"] ∧
      categoryConfidence (strLower "Please draft an email to the client")
        ["schedule", "appointment", "meeting", "deposition", "call", "book",
         "arrange", "coordinate", "set up", "plan", "organize", "calendar"] ≤ 1) ∧
    ((intelligent_task_type_detection "xyzzy").taskType = "unknown" ↔
      (intelligent_task_type_detection "xyzzy").confidence < 1 / 10) := by
  constructor
  · have h := (C9_keyword_classifier "Please draft an email to the client").1
      "schedule_appointment"
      ["schedule", "appointment", "meeting", "deposition", "call", "book",
       "arrange", "coordinate", "set up", "plan", "organize", "calendar"]
      (by decide)
    exact ⟨h.1, h.2.1⟩
  · exact (C9_keyword_classifier "xyzzy").2.2.2.1

end TenderCoordinator

namespace Orchestrator

open Ledger Store EmailSender

theorem store_message_frame (s r c : String) (st : DbState) :
    (store_message s r c st).2.activities = st.activities ∧
    (store_message s r c st).2.nextActivityId = st.nextActivityId ∧
    (store_message s r c st).2.sentEmails = st.sentEmails ∧
    (store_message s r c st).2.now = st.now ∧
    (store_message s r c st).2.caseData = st.caseData :=
  ⟨rfl, rfl, rfl, rfl, rfl⟩

theorem resolveSession_frame (caseId : String) (sidArg : Option String)
    (analysis : AnalysisData) (st : DbState) :
    (resolveSession caseId sidArg analysis st).2.2.activities = st.activities ∧
    (resolveSession caseId sidArg analysis st).2.2.nextActivityId = st.nextActivityId ∧
    (resolveSession caseId sidArg analysis st).2.2.sentEmails = st.sentEmails ∧
    (resolveSession caseId sidArg analysis st).2.2.now = st.now ∧
    (resolveSession caseId sidArg analysis st).2.2.caseData = st.caseData := by
  unfold resolveSession
  cases sidArg with
  | some sid =>
      by_cases hc : analysis.isContinuation.getD false <;>
        simp [hc, create_session]
  | none =>
      cases hga : get_active_session st caseId with
      | none => simp [hga, create_session]
      | some s =>
          by_cases hc : analysis.isContinuation.getD false <;>
            simp [hga, hc, create_session]

theorem orchestrator_eq_ok (o : Oracles) (caseId query caseContext : String)
    (sidArg : Option String) (st : DbState)
    (parsed : Option AnalysisData)
    (ho : o.analysisResult = Except.ok parsed) :
    orchestrator o caseId query caseContext sidArg st =
      (match orchestrator_branch o
          ((classifierParse parsed).actionType.getD "general_query") caseId
          query caseContext
          (resolveSession caseId sidArg (classifierParse parsed) st).2.1
          (classifierParse parsed)
          ((store_message
            (resolveSession caseId sidArg (classifierParse parsed) st).2.1
            "user" query
            (resolveSession caseId sidArg (classifierParse parsed) st).2.2).2) with
       | Except.error e => Except.error e
       | Except.ok (b, st3) =>
           Except.ok
             ({ status := "success"
                sessionId := (resolveSession caseId sidArg (classifierParse parsed) st).2.1
                sessionMode := (resolveSession caseId sidArg (classifierParse parsed) st).1
                topic := (classifierParse parsed).topic
                actionType := (classifierParse parsed).actionType.getD "general_query"
                requiresApproval := (classifierParse parsed).requiresApproval.getD false
                activityId := b.activityId
                agentType := (classifierParse parsed).agentType
                message := b.responseMessage
                reasoning := (classifierParse parsed).reasoning },
              (store_message
                (resolveSession caseId sidArg (classifierParse parsed) st).2.1
                "agent" b.agentResponseStr st3).2)) := by
  unfold orchestrator
  rw [ho]

theorem orchestrator_raises_of_analysis_raises (o : Oracles)
    (caseId query caseContext : String) (sidArg : Option String) (st : DbState)
    (e : String) (ho : o.analysisResult = Except.error e) :
    orchestrator o caseId query caseContext sidArg st = Except.error e := by
  unfold orchestrator
  rw [ho]

theorem guru_ok_inv (dO : Except String String)
    (cF : Option (Option String × Option String)) (cc task caseId : String)
    (sid : Option String) (st : DbState) (g : GuruOut) (st' : DbState)
    (h : client_communication_guru dO cF cc task caseId sid true st =
      Except.ok (g, st')) :
    g.emailSent = some false ∧
    g.requiresApproval = true ∧
    st'.sentEmails = st.sentEmails ∧
    (caseId = "" → g.activityIdOpt = none ∧ st' = st) ∧
    (caseId ≠ "" → ∃ d, dO = Except.ok d ∧
      g.activityIdOpt = some st.nextActivityId ∧
      g.draft = d.trim ∧
      st'.nextActivityId = st.nextActivityId + 1 ∧
      st'.activities = st.activities ++ [guruSendRow task caseId sid d st] ∧
      st'.caseData = st.caseData ∧ st'.now = st.now) := by
  cases hdO : dO with
  | error e =>
      rw [hdO] at h
      simp [client_communication_guru] at h
  | ok d =>
      rw [hdO] at h
      by_cases hc : caseId = ""
      · subst hc
        simp only [client_communication_guru, prepare_email_for_approval,
          if_true, if_neg (by simp : ¬ ("" : String) ≠ ""),
          if_pos rfl, Except.ok.injEq, Prod.mk.injEq] at h
        obtain ⟨hg, hst⟩ := h
        subst hg
        subst hst
        refine ⟨rfl, rfl, rfl, fun _ => ⟨rfl, rfl⟩, fun hne => absurd rfl hne⟩
      · simp only [client_communication_guru, prepare_email_for_approval,
          if_true, if_pos hc, if_neg hc, log_agent_activity,
          Except.ok.injEq, Prod.mk.injEq] at h
        obtain ⟨hg, hst⟩ := h
        subst hg
        subst hst
        refine ⟨rfl, rfl, rfl, fun he => absurd he hc, fun _ =>
          ⟨d, rfl, rfl, rfl, rfl, rfl, rfl, rfl⟩⟩

end Orchestrator

namespace Orchestrator

open Ledger Store EmailSender

theorem branch_new_rows_approved (o : Oracles)
    (at0 caseId query caseContext session : String) (analysis : AnalysisData)
    (st : DbState) (b : BranchOut) (st3 : DbState)
    (hat : at0 = "draft_email" ∨ at0 = "request_records" ∨
      at0 = "schedule_appointment")
    (hb : orchestrator_branch o at0 caseId query caseContext session analysis st =
      Except.ok (b, st3)) :
    ∃ newRows, st3.activities = st.activities ++ newRows ∧
      ∀ r ∈ newRows, r.requiresApproval = true ∧ r.status = "pending" := by
  rcases hat with rfl | rfl | rfl
  · -- draft_email
    simp only [orchestrator_branch, if_pos rfl] at hb
    cases hcall : client_communication_guru o.guruDraft o.guruClientFetch
        caseContext query caseId (some session) true st with
    | error e => rw [hcall] at hb; cases hb
    | ok p =>
        rcases p with ⟨g, st1⟩
        obtain ⟨hsent, _, _, hempty, hnonempty⟩ :=
          guru_ok_inv o.guruDraft o.guruClientFetch caseContext query caseId
            (some session) st g st1 hcall
        rw [hcall] at hb
        simp only [hsent, Option.getD_some, eq_self_iff_true, if_true,
          log_agent_activity, Except.ok.injEq, Prod.mk.injEq] at hb
        obtain ⟨hbv, hst3⟩ := hb
        subst hst3
        by_cases hc : caseId = ""
        · obtain ⟨_, hst1⟩ := hempty hc
          subst hst1
          refine ⟨_, rfl, ?_⟩
          intro r hr
          rcases List.mem_singleton.mp hr with rfl
          exact ⟨rfl, rfl⟩
        · obtain ⟨d, _, _, _, _, hacts, _, _⟩ := hnonempty hc
          refine ⟨[guruSendRow query caseId (some session) d st] ++
            [{ activityId := st1.nextActivityId, caseId := caseId,
               agentType := "ClientCommunicationGuru",
               agentAction := "draft_email", status := "pending",
               prompt := query, agentResponse := dumpsGuru g,
               actionData := some [("draft", g.draft), ("to", g.toAddr),
                 ("subject", g.subject)],
               requiresApproval := true, sessionId := some session,
               createdAt := st1.now, updatedAt := st1.now, approvedAt := none,
               approvedBy := none, executionResult := none,
               errorMessage := none }], ?_, ?_⟩
          · show st1.activities ++ _ = _
            rw [hacts, List.append_assoc]
          · intro r hr
            rcases List.mem_append.mp hr with h1 | h1
            · rcases List.mem_singleton.mp h1 with rfl
              exact ⟨rfl, rfl⟩
            · rcases List.mem_singleton.mp h1 with rfl
              exact ⟨rfl, rfl⟩
  · -- request_records
    unfold orchestrator_branch at hb
    rw [if_neg (by decide), if_neg (by decide), if_neg (by decide),
      if_pos rfl] at hb
    cases hcall : o.recordsRequest with
    | error e => rw [hcall] at hb; cases hb
    | ok r =>
        rw [hcall] at hb
        cases hdraft : r.draft with
        | some d =>
            simp only [hdraft, log_agent_activity, Except.ok.injEq,
              Prod.mk.injEq] at hb
            obtain ⟨hbv, hst3⟩ := hb
            subst hst3
            refine ⟨_, rfl, ?_⟩
            intro row hrow
            rcases List.mem_singleton.mp hrow with rfl
            exact ⟨rfl, rfl⟩
        | none =>
            simp only [hdraft, Except.ok.injEq, Prod.mk.injEq] at hb
            obtain ⟨hbv, hst3⟩ := hb
            subst hst3
            exact ⟨[], (List.append_nil _).symm, by intro r hr; cases hr⟩
  · -- schedule_appointment
    unfold orchestrator_branch at hb
    rw [if_neg (by decide), if_neg (by decide), if_neg (by decide),
      if_neg (by decide), if_pos rfl] at hb
    simp only [log_agent_activity, Except.ok.injEq, Prod.mk.injEq] at hb
    obtain ⟨hbv, hst3⟩ := hb
    subst hst3
    refine ⟨_, rfl, ?_⟩
    intro row hrow
    rcases List.mem_singleton.mp hrow with rfl
    exact ⟨rfl, rfl⟩

end Orchestrator

namespace Orchestrator

open Ledger Store EmailSender

/-- Counterexample to claim C5: the parse-failure fallback's `reasoning`
string is `"Failed to parse, defaulting to safe general query"`, not the
documented `"parse failure, defaulting to safe path"`, so the classifier's
output on unparsable inference text is NOT exactly the documented default. -/
theorem C5_counterexample :
    (classifierParse none).reasoning =
      some "Failed to parse, defaulting to safe general query" ∧
    (classifierParse none).reasoning ≠
      some "parse failure, defaulting to safe path" := by
  decide

/-- Claim C5 as amended: on a `json.loads` failure the in-process
classifier does return a deterministic safe default with
`is_continuation = false`, `action_type = general_query` and
`requires_approval = false` (never a privilege escalation), but its
`reasoning` string is `"Failed to parse, defaulting to safe general
query"`; an exception raised by the inference call itself is NOT caught by
the in-process orchestrator (it propagates to the caller), while
`HostOrchestrator.analyze_intent` does catch it, returning a fallback -
also with `requires_approval = false` - whose reasoning embeds the
exception text (hence is not a fixed string). -/
theorem C5_amended_fallback (oArb : Oracles) :
    classifierParse none = analysisFallback ∧
    analysisFallback.isContinuation = some false ∧
    analysisFallback.actionType = some "general_query" ∧
    analysisFallback.requiresApproval = some false ∧
    analysisFallback.reasoning =
      some "Failed to parse, defaulting to safe general query" ∧
    (∀ caseId query caseContext sidArg st e,
      oArb.analysisResult = Except.error e →
      orchestrator oArb caseId query caseContext sidArg st = Except.error e) ∧
    (∀ e, HostAgent.hostAnalyzeIntent (Except.error e) =
        HostAgent.hostAnalysisFallback e ∧
      (HostAgent.hostAnalysisFallback e).requiresApproval = some false ∧
      (HostAgent.hostAnalysisFallback e).reasoning =
        some ("Failed to analyze intent: " ++ e)) := by
  refine ⟨rfl, rfl, rfl, rfl, rfl, ?_, fun e => ⟨rfl, rfl, rfl⟩⟩
  intro caseId query caseContext sidArg st e ho
  exact orchestrator_raises_of_analysis_raises oArb caseId query caseContext
    sidArg st e ho

/-- Witness for the amended claim C5: a raised inference call propagates out
of the orchestrator at a concrete input, and the host fallback for a
concrete exception keeps `requires_approval = false`. -/
theorem C5_amended_fallback_witness :
    orchestrator c5Oracles "case-1" "Draft an email" "" none emptyDb =
      Except.error "inference service unavailable" ∧
    (HostAgent.hostAnalysisFallback "boom").requiresApproval = some false := by
  constructor
  · exact (C5_amended_fallback c5Oracles).2.2.2.2.2.1 "case-1" "Draft an email"
      "" none emptyDb "inference service unavailable" rfl
  · exact ((C5_amended_fallback c5Oracles).2.2.2.2.2.2 "boom").2.1

end Orchestrator

namespace EmailSender

open Ledger Store Orchestrator

/-- Claim C2: the outbound email sender is invoked only after the
corresponding ledger row is `approved`.  (i) `send_approved_email` invokes
the SMTP sender (extends `sentEmails`) only when the activity it fetched
has status exactly `approved`; for a row in any other status, and for an
unknown id, it returns a `status='error'` result and leaves the state
untouched.  (ii) Handling a draft/send request via
`client_communication_guru(send_email=True)` performs no SMTP invocation
and only creates a `pending` `send_email` ledger row, reporting
`email_sent = false`. -/
theorem C2_send_only_after_approval (cfg : EmailConfig)
    (smtp : Except String Unit) (aid : Nat) (st : DbState)
    (dO : Except String String) (cF : Option (Option String × Option String))
    (cc task caseId : String) (sid : Option String) (g : GuruOut)
    (st' : DbState) :
    ((send_approved_email cfg smtp aid st).2.sentEmails ≠ st.sentEmails →
      ∃ a, st.activities.find? (fun x => x.activityId = aid) = some a ∧
        a.status = "approved") ∧
    (∀ a, st.activities.find? (fun x => x.activityId = aid) = some a →
      a.status ≠ "approved" →
      (send_approved_email cfg smtp aid st).1.status = "error" ∧
      (send_approved_email cfg smtp aid st).2 = st) ∧
    (st.activities.find? (fun x => x.activityId = aid) = none →
      (send_approved_email cfg smtp aid st).1.status = "error" ∧
      (send_approved_email cfg smtp aid st).2 = st) ∧
    (client_communication_guru dO cF cc task caseId sid true st =
        Except.ok (g, st') →
      st'.sentEmails = st.sentEmails ∧
      g.emailSent = some false ∧
      (caseId ≠ "" → ∃ d, dO = Except.ok d ∧
        st'.activities = st.activities ++ [guruSendRow task caseId sid d st] ∧
        (guruSendRow task caseId sid d st).status = "pending" ∧
        (guruSendRow task caseId sid d st).agentAction = "send_email")) := by
  refine ⟨?_, ?_, ?_, ?_⟩
  · intro hne
    cases hfind : st.activities.find? (fun x => x.activityId = aid) with
    | none =>
        exfalso
        apply hne
        simp [send_approved_email, hfind]
    | some a =>
        by_cases hst : a.status = "approved"
        · exact ⟨a, rfl, hst⟩
        · exfalso
          apply hne
          simp [send_approved_email, hfind, hst]
  · intro a hfind hst
    constructor <;> simp [send_approved_email, hfind, hst]
  · intro hfind
    constructor <;> simp [send_approved_email, hfind]
  · intro h
    obtain ⟨hsent, _, hmail, _, hnonempty⟩ :=
      guru_ok_inv dO cF cc task caseId sid st g st' h
    refine ⟨hmail, hsent, ?_⟩
    intro hc
    obtain ⟨d, hdO, _, _, _, hacts, _, _⟩ := hnonempty hc
    exact ⟨d, hdO, hacts, rfl, rfl⟩

/-- Witness for claim C2: on a still-`pending` activity the post-approval
sender refuses (error result, state untouched), and a concrete guru
draft/send run reports `email_sent = false` while logging only a pending
`send_email` row. -/
theorem C2_send_only_after_approval_witness :
    ((send_approved_email c2Config (Except.ok ()) 0 c2State).1.status = "error" ∧
      (send_approved_email c2Config (Except.ok ()) 0 c2State).2 = c2State) ∧
    ∃ g st',
      client_communication_guru (Except.ok "Dear Jane,") none "ctx"
        "send an update to the client" "case-1" none true c2State =
        Except.ok (g, st') ∧
      st'.sentEmails = c2State.sentEmails ∧ g.emailSent = some false := by
  constructor
  · exact (C2_send_only_after_approval c2Config (Except.ok ()) 0 c2State
      (Except.ok "Dear Jane,") none "ctx" "send an update to the client"
      "case-1" none
      { draft := "", toAddr := "", toName := "", subject := "",
        requiresApproval := true, emailSent := none, approvalStatus := none,
        activityIdOpt := none, message := none }
      c2State).2.1 c2Row (by decide) (by decide)
  · refine ⟨_, _, rfl, ?_⟩
    have h := (C2_send_only_after_approval c2Config (Except.ok ()) 0 c2State
      (Except.ok "Dear Jane,") none "ctx" "send an update to the client"
      "case-1" none _ _).2.2.2 rfl
    exact ⟨h.1, h.2.1⟩

end EmailSender

namespace Orchestrator

open Ledger Store

/-- Claim C4: whenever the resolved action kind lies in the static
requires-approval set (`draft_email`, `request_records`,
`schedule_appointment`), every Approval Ledger row logged during that
request carries `requires_approval = true` - the logging call sites pass
the literal `True` - regardless of the `requires_approval` value in the
intent analysis (which is quantified over arbitrarily here and only feeds
the response envelope). -/
theorem C4_static_override (o : Oracles) (caseId query caseContext : String)
    (sidArg : Option String) (st : DbState) (parsed : Option AnalysisData)
    (resp : OrchResponse) (st' : DbState)
    (ho : o.analysisResult = Except.ok parsed)
    (hat : (classifierParse parsed).actionType.getD "general_query" = "draft_email" ∨
      (classifierParse parsed).actionType.getD "general_query" = "request_records" ∨
      (classifierParse parsed).actionType.getD "general_query" = "schedule_appointment")
    (horch : orchestrator o caseId query caseContext sidArg st =
      Except.ok (resp, st')) :
    ∃ newRows, st'.activities = st.activities ++ newRows ∧
      ∀ r ∈ newRows, r.requiresApproval = true := by
  rw [orchestrator_eq_ok o caseId query caseContext sidArg st parsed ho] at horch
  cases hb : orchestrator_branch o
      ((classifierParse parsed).actionType.getD "general_query") caseId query
      caseContext (resolveSession caseId sidArg (classifierParse parsed) st).2.1
      (classifierParse parsed)
      ((store_message (resolveSession caseId sidArg (classifierParse parsed) st).2.1
        "user" query
        (resolveSession caseId sidArg (classifierParse parsed) st).2.2).2) with
  | error e => rw [hb] at horch; cases horch
  | ok p =>
      rcases p with ⟨b, st3⟩
      rw [hb] at horch
      simp only [Except.ok.injEq, Prod.mk.injEq] at horch
      obtain ⟨_, hst'⟩ := horch
      obtain ⟨rows, hrows, happ⟩ := branch_new_rows_approved o _ caseId query
        caseContext _ (classifierParse parsed) _ b st3 hat hb
      refine ⟨rows, ?_, fun r hr => (happ r hr).1⟩
      rw [← hst']
      rw [(store_message_frame _ "agent" b.agentResponseStr st3).1, hrows,
        (store_message_frame _ "user" query _).1,
        (resolveSession_frame caseId sidArg (classifierParse parsed) st).1]

/-- Witness for claim C4: a concrete schedule-appointment run whose dynamic
decision said `requires_approval = false` still logs only rows with
`requires_approval = true`. -/
theorem C4_static_override_witness :
    ∃ resp st',
      orchestrator c4Oracles "case-1" "Schedule a deposition" "" none emptyDb =
        Except.ok (resp, st') ∧
      ∃ newRows, st'.activities = emptyDb.activities ++ newRows ∧
        ∀ r ∈ newRows, r.requiresApproval = true := by
  refine ⟨_, _, rfl, ?_⟩
  exact C4_static_override c4Oracles "case-1" "Schedule a deposition" "" none
    emptyDb (some c4Analysis) _ _ rfl (Or.inr (Or.inr (by decide))) rfl

end Orchestrator

namespace Orchestrator

open Ledger Store

/-- Claim C10: a successful `draft_email` request creates TWO distinct
pending ledger rows - one `send_email` row from
`prepare_email_for_approval` inside the guru, and a second `draft_email`
row logged by the orchestrator because the guru always reports
`email_sent = false` - and the `activity_id` in the orchestrator's response
names the second (`draft_email`) row, not the row the post-approval sender
executes. -/
theorem C10_double_pending_rows (o : Oracles) (caseId query caseContext : String)
    (sidArg : Option String) (st : DbState) (parsed : Option AnalysisData)
    (resp : OrchResponse) (st' : DbState)
    (ho : o.analysisResult = Except.ok parsed)
    (hat : (classifierParse parsed).actionType.getD "general_query" = "draft_email")
    (hcase : caseId ≠ "")
    (horch : orchestrator o caseId query caseContext sidArg st =
      Except.ok (resp, st')) :
    ∃ d rowSend rowDraft,
      o.guruDraft = Except.ok d ∧
      st'.activities = st.activities ++ [rowSend, rowDraft] ∧
      rowSend.agentAction = "send_email" ∧ rowSend.status = "pending" ∧
      rowSend.requiresApproval = true ∧
      rowDraft.agentAction = "draft_email" ∧ rowDraft.status = "pending" ∧
      rowDraft.requiresApproval = true ∧
      rowSend.activityId ≠ rowDraft.activityId ∧
      resp.activityId = some rowDraft.activityId := by
  rw [orchestrator_eq_ok o caseId query caseContext sidArg st parsed ho] at horch
  rw [hat] at horch
  cases hb : orchestrator_branch o "draft_email" caseId query caseContext
      (resolveSession caseId sidArg (classifierParse parsed) st).2.1
      (classifierParse parsed)
      ((store_message (resolveSession caseId sidArg (classifierParse parsed) st).2.1
        "user" query
        (resolveSession caseId sidArg (classifierParse parsed) st).2.2).2) with
  | error e => rw [hb] at horch; cases horch
  | ok p =>
      rcases p with ⟨b, st3⟩
      rw [hb] at horch
      simp only [Except.ok.injEq, Prod.mk.injEq] at horch
      obtain ⟨hresp, hst'⟩ := horch
      simp only [orchestrator_branch, if_pos rfl] at hb
      cases hcall : client_communication_guru o.guruDraft o.guruClientFetch
          caseContext query caseId
          (some (resolveSession caseId sidArg (classifierParse parsed) st).2.1)
          true
          ((store_message (resolveSession caseId sidArg (classifierParse parsed) st).2.1
            "user" query
            (resolveSession caseId sidArg (classifierParse parsed) st).2.2).2) with
      | error e => rw [hcall] at hb; cases hb
      | ok q =>
          rcases q with ⟨g, st1⟩
          obtain ⟨hsent, _, _, _, hnonempty⟩ :=
            guru_ok_inv o.guruDraft o.guruClientFetch caseContext query caseId
              (some (resolveSession caseId sidArg (classifierParse parsed) st).2.1)
              ((store_message (resolveSession caseId sidArg (classifierParse parsed) st).2.1
                "user" query
                (resolveSession caseId sidArg (classifierParse parsed) st).2.2).2)
              g st1 hcall
          obtain ⟨d, hdO, hgid, hdraft, hnid, hacts, _, _⟩ := hnonempty hcase
          rw [hcall] at hb
          simp only [hsent, Option.getD_some, eq_self_iff_true, if_true,
            log_agent_activity, Except.ok.injEq, Prod.mk.injEq] at hb
          obtain ⟨hbv, hst3⟩ := hb
          refine ⟨d,
            guruSendRow query caseId
              (some (resolveSession caseId sidArg (classifierParse parsed) st).2.1) d
              ((store_message (resolveSession caseId sidArg (classifierParse parsed) st).2.1
                "user" query
                (resolveSession caseId sidArg (classifierParse parsed) st).2.2).2),
            { activityId := st1.nextActivityId, caseId := caseId,
              agentType := "ClientCommunicationGuru",
              agentAction := "draft_email", status := "pending",
              prompt := query, agentResponse := dumpsGuru g,
              actionData := some [("draft", g.draft), ("to", g.toAddr),
                ("subject", g.subject)],
              requiresApproval := true,
              sessionId := some (resolveSession caseId sidArg (classifierParse parsed) st).2.1,
              createdAt := st1.now, updatedAt := st1.now, approvedAt := none,
              approvedBy := none, executionResult := none, errorMessage := none },
            hdO, ?_, rfl, rfl, rfl, rfl, rfl, rfl, ?_, ?_⟩
          · rw [← hst']
            rw [(store_message_frame _ "agent" b.agentResponseStr st3).1, ← hst3]
            show st1.activities ++ _ = _
            rw [hacts,
              (store_message_frame _ "user" query _).1,
              (resolveSession_frame caseId sidArg (classifierParse parsed) st).1,
              List.append_assoc]
            rfl
          · show ((store_message (resolveSession caseId sidArg (classifierParse parsed) st).2.1
              "user" query
              (resolveSession caseId sidArg (classifierParse parsed) st).2.2).2).nextActivityId ≠
                st1.nextActivityId
            rw [hnid]
            exact Nat.ne_of_lt (Nat.lt_succ_self _)
          · rw [← hresp]
            show b.activityId = some st1.nextActivityId
            rw [← hbv]

end Orchestrator

namespace Orchestrator

open Ledger Store HostAgent

/-- Witness for claim C10: a concrete successful draft_email run yields the
two distinct pending rows and the response points at the second one. -/
theorem C10_double_pending_rows_witness :
    ∃ resp st',
      orchestrator c10Oracles "case-1" "Draft an email about the settlement offer"
        "" none emptyDb = Except.ok (resp, st') ∧
      ∃ d rowSend rowDraft,
        c10Oracles.guruDraft = Except.ok d ∧
        st'.activities = emptyDb.activities ++ [rowSend, rowDraft] ∧
        rowSend.agentAction = "send_email" ∧ rowSend.status = "pending" ∧
        rowSend.requiresApproval = true ∧
        rowDraft.agentAction = "draft_email" ∧ rowDraft.status = "pending" ∧
        rowDraft.requiresApproval = true ∧
        rowSend.activityId ≠ rowDraft.activityId ∧
        resp.activityId = some rowDraft.activityId := by
  refine ⟨_, _, rfl, ?_⟩
  exact C10_double_pending_rows c10Oracles "case-1"
    "Draft an email about the settlement offer" "" none emptyDb
    (some c10Analysis) _ _ rfl (by decide) (by decide) rfl

/-- Counterexample to claim C6: when the legal-research delegation raises
during a no-approval request, the in-process orchestrator does NOT return a
structured `status='error'` response - the exception propagates to the
caller (only the HTTP layer's catch-all converts it to a 500). -/
theorem C6_counterexample :
    orchestrator c6Oracles "case-9" "Research precedents for negligence" "ctx"
      none emptyDb = Except.error "Remote handler timeout" := rfl

/-- Claim C6 as amended: (i) in the in-process orchestrator an exception
raised while delegating a legal-research (no-approval) request propagates
to the caller - no structured response, no ledger row from the raising run;
(ii) `HostOrchestrator.process` DOES convert a raised remote delegation
into a structured `status='error'` response carrying the transport
diagnostic, and it creates no Approval Ledger row and appends no session
message (the threaded state comes back untouched - the source makes no
persistence call at all). -/
theorem C6_amended_failure_semantics (oArb : Oracles) :
    (∀ caseId query caseContext sidArg st parsed e,
      oArb.analysisResult = Except.ok parsed →
      (classifierParse parsed).actionType.getD "general_query" = "research_external" →
      oArb.legalResearch = Except.error e →
      orchestrator oArb caseId query caseContext sidArg st = Except.error e) ∧
    (∀ known aO gO e caseId query caseContext sidOpt fb st,
      (hostAnalyzeIntent aO).agentName.getD "Orchestrator" ≠ "Orchestrator" →
      (hostAnalyzeIntent aO).actionType.getD "general_query" ≠ "general_query" →
      known.contains ((hostAnalyzeIntent aO).agentName.getD "Orchestrator") = true →
      ∃ resp, hostProcess known aO gO (SendOutcome.raised e) caseId query
          caseContext sidOpt fb st = Except.ok (resp, st) ∧
        resp.status = "error" ∧
        resp.result = "Error communicating with " ++
          ((hostAnalyzeIntent aO).agentName.getD "Orchestrator") ++ ": " ++ e) := by
  constructor
  · intro caseId query caseContext sidArg st parsed e ho hat hlr
    rw [orchestrator_eq_ok oArb caseId query caseContext sidArg st parsed ho,
      hat]
    have hb : orchestrator_branch oArb "research_external" caseId query
        caseContext (resolveSession caseId sidArg (classifierParse parsed) st).2.1
        (classifierParse parsed)
        ((store_message (resolveSession caseId sidArg (classifierParse parsed) st).2.1
          "user" query
          (resolveSession caseId sidArg (classifierParse parsed) st).2.2).2) =
        Except.error e := by
      unfold orchestrator_branch
      rw [if_neg (by decide), if_neg (by decide), if_neg (by decide),
        if_neg (by decide), if_neg (by decide), if_pos rfl, hlr]
    rw [hb]
  · intro known aO gO e caseId query caseContext sidOpt fb st h1 h2 h3
    have hrun : hostProcess known aO gO (SendOutcome.raised e) caseId query
        caseContext sidOpt fb st =
      Except.ok
        ({ status := "error"
           sessionId := sidOpt.getD fb
           agentType := (hostAnalyzeIntent aO).agentName.getD "Orchestrator"
           actionType := (hostAnalyzeIntent aO).actionType.getD "general_query"
           requiresApproval := (hostAnalyzeIntent aO).requiresApproval.getD false
           result := "Error communicating with " ++
             ((hostAnalyzeIntent aO).agentName.getD "Orchestrator") ++ ": " ++ e
           reasoning := (hostAnalyzeIntent aO).reasoning
           isContinuation := (hostAnalyzeIntent aO).isContinuation.getD false },
         st) := by
      unfold hostProcess
      dsimp only
      rw [if_neg (by simp [h1, h2])]
      unfold delegate_to_agent
      rw [if_neg (not_not_intro h3)]
      rfl
    exact ⟨_, hrun, rfl, rfl⟩

/-- Witness for the amended claim C6: a concrete propagated delegation
exception, and a concrete host run that converts a raised send into a
structured error with the state untouched. -/
theorem C6_amended_failure_semantics_witness :
    orchestrator c6Oracles "case-2" "Find case law on liability" "" none
      emptyDb = Except.error "Remote handler timeout" ∧
    ∃ resp,
      hostProcess ["Legal Researcher Agent"]
        (Except.ok { agentName := some "Legal Researcher Agent",
                     actionType := some "research_legal",
                     isContinuation := some false,
                     reasoning := some "r",
                     requiresApproval := some false })
        (Except.ok "general answer") (SendOutcome.raised "connect timeout")
        "case-2" "Find case law on liability" "" none "sess-fallback"
        emptyDb = Except.ok (resp, emptyDb) ∧
      resp.status = "error" ∧
      resp.result = "Error communicating with " ++ "Legal Researcher Agent" ++
        ": " ++ "connect timeout" := by
  constructor
  · exact (C6_amended_failure_semantics c6Oracles).1 "case-2"
      "Find case law on liability" "" none emptyDb (some c6Analysis)
      "Remote handler timeout" rfl (by decide) rfl
  · exact (C6_amended_failure_semantics c6Oracles).2 ["Legal Researcher Agent"]
      (Except.ok { agentName := some "Legal Researcher Agent",
                   actionType := some "research_legal",
                   isContinuation := some false,
                   reasoning := some "r",
                   requiresApproval := some false })
      (Except.ok "general answer") "connect timeout" "case-2"
      "Find case law on liability" "" none "sess-fallback" emptyDb
      (by decide) (by decide) (by decide)

end Orchestrator
